import Mathlib

/-!
Verification of the session-state/history engine of the Solo RPG Companion
application (a single-user browser app for solo tabletop-RPG play).

The engine is shallowly embedded: parsed JSON values are modelled by the
`Json` inductive, JavaScript runtime behaviours (typeof checks, truthiness,
property access, template-string interpolation, `JSON.stringify` equality)
by explicit helper functions, and the browser's ambient collaborators
(`crypto.randomUUID`, `new Date()`, `matchMedia`) by an `Env` record plus a
counter that is threaded through every function that can generate ids.
Property accesses that can throw a `TypeError` (reading a field of `null`)
are modelled with `Except Unit`.

Source functions embedded here: `getInitialSessionData`,
`validateAndMigrateData`, `updateHistory`, `handleUndo` / `handleRedo`,
`addPlayLogEntry`, `handleRollDice` (its dice-history update),
`handleReflect` / `handleReflectTrackerChange`, `setLoadedGameDataPackage`,
`handleLoadGameDataPackageFile`, together with the constants they use.
-/

/-- A parsed JSON value (the result of `JSON.parse`).  Object field lists
are unique-keyed, as `JSON.parse` keeps only the last occurrence of a
duplicated key.  Numbers are modelled as integers: every numeric literal the
claims mention is integral. -/
inductive Json where
  | null
  | bool (b : Bool)
  | num (n : Int)
  | str (s : String)
  | arr (elems : List Json)
  | obj (fields : List (String × Json))

/-- JavaScript truthiness of a JSON value: `null`, `false`, `0` and `""`
are falsy, everything else (including `[]` and `{}`) is truthy. -/
def Json.truthy : Json → Bool
  | .null => false
  | .bool b => b
  | .num n => n != 0
  | .str s => s != ""
  | .arr _ => true
  | .obj _ => true

/-- `typeof v === 'object' && v !== null`: true for objects and arrays. -/
def Json.isObjLike : Json → Bool
  | .obj _ => true
  | .arr _ => true
  | _ => false

/-- First (unique) binding of a key in an object field list. -/
def lookupField : List (String × Json) → String → Option Json
  | [], _ => none
  | (k', v) :: rest, k => if k' = k then some v else lookupField rest k

/-- Property access `v.k` on a value that is known not to be `null`
(or is accessed through optional chaining): objects yield the stored field,
every non-object (and an absent key) yields `undefined`, modelled as
`none`.  Accessing a property of `null` throws instead; the call sites that
can reach that case use `Except` explicitly. -/
def Json.getF : Json → String → Option Json
  | .obj fs, k => lookupField fs k
  | _, _ => none

mutual
/-- Structural equality of JSON values, standing in for the source's
`JSON.stringify(a) !== JSON.stringify(b)` comparison (equal structures
stringify equally). -/
def Json.beq : Json → Json → Bool
  | .null, .null => true
  | .bool a, .bool b => a == b
  | .num a, .num b => a == b
  | .str a, .str b => a == b
  | .arr a, .arr b => Json.beqList a b
  | .obj a, .obj b => Json.beqFields a b
  | _, _ => false
def Json.beqList : List Json → List Json → Bool
  | [], [] => true
  | x :: xs, y :: ys => Json.beq x y && Json.beqList xs ys
  | _, _ => false
def Json.beqFields : List (String × Json) → List (String × Json) → Bool
  | [], [] => true
  | (k, v) :: xs, (l, w) :: ys => k == l && Json.beq v w && Json.beqFields xs ys
  | _, _ => false
end

mutual
/-- JavaScript `String(v)` / template-literal interpolation of a value. -/
def jsDisplay : Json → String
  | .null => "null"
  | .bool b => if b then "true" else "false"
  | .num n => toString n
  | .str s => s
  | .arr xs => jsDisplayList xs
  | .obj _ => "[object Object]"
/-- `Array.prototype.toString`: elements joined by commas, `null` rendered
as the empty string. -/
def jsDisplayList : List Json → String
  | [] => ""
  | x :: xs =>
      (match x with | .null => "" | y => jsDisplay y) ++
      (match xs with | [] => "" | _ => "," ++ jsDisplayList xs)
end

/-- JavaScript `String.prototype.trim`: strip leading and trailing
whitespace (structural recursion over the character list, so that concrete
calls reduce definitionally). -/
def jsTrim (s : String) : String :=
  String.mk (((s.data.dropWhile Char.isWhitespace).reverse.dropWhile
    Char.isWhitespace).reverse)

/-- The browser collaborators the engine reads: the stream of values
produced by successive `crypto.randomUUID()` calls, the current instant as
an ISO string, validity of a timestamp string under
`!isNaN(new Date(s).getTime())`, the `prefers-color-scheme` media query,
and the two ids generated once at module load for the default
`customFieldTemplates` of `DEFAULT_GAME_DATA_PACKAGE_STRUCTURE`. -/
structure Env where
  uuid : Nat → String
  now : String
  tsValid : String → Bool
  prefersDark : Bool
  dfltCftId1 : String
  dfltCftId2 : String

/-- One play-log line. -/
structure LogEntry where
  id : String
  content : String
  type : String
  colorKey : String
  timestamp : String

/-- One character-sheet custom field.  `fieldName` stays a raw JSON value
because `setLoadedGameDataPackage` copies a template's `label` (which the
package validator only guards with `||`, not a type check) into it. -/
structure CustomField where
  id : String
  fieldName : Json
  fieldValue : String

/-- The character sheet.  `image` is a string or `null`; `statsLabel` is a
raw JSON value for the same reason as `CustomField.fieldName`. -/
structure CharacterSheet where
  name : String
  image : Option String
  stats : String
  statsLabel : Json
  customFields : List CustomField

/-- One random-table entry.  `rollValue` is absent (`undefined`) or a raw
JSON value; the session validator stores a string or leaves it absent,
while a table copied from a game-data package carries the template's
`||`-guarded raw value. -/
structure TableEntry where
  id : Json
  value : Json
  rollValue : Option Json

/-- One random table of the session. -/
structure RandomTable where
  id : Json
  name : Json
  diceCommand : Json
  entries : List TableEntry

/-- One record of a resource tracker's internal history. -/
structure TrackerHistoryEntry where
  id : String
  timestamp : String
  change : Int
  previousValue : Int
  newValue : Int
  reason : String

/-- One numeric resource tracker.  `name` is raw JSON because tracker
creation from a package template copies the template's `||`-guarded
`name`. -/
structure ResourceTracker where
  id : String
  name : Json
  value : Int
  history : List TrackerHistoryEntry

/-- One dice roll kept in the dice-roll history. -/
structure DiceRoll where
  id : String
  command : String
  individualRolls : List Int
  total : Int
  timestamp : String

/-- A validated package manifest.  All five fields are raw JSON values: the
validator merges them with `{...DEFAULT.manifest, ...(pkg.manifest || {})}`
without any per-field type check. -/
structure Manifest where
  gameTitle : Json
  author : Json
  version : Json
  description : Json
  srgdVersion : Json

/-- A validated custom-field template: `id` and `label` are `||`-guarded
raw values, `type` is coerced into {text, textarea, number}. -/
structure CustomFieldTemplate where
  id : Json
  label : Json
  type : String

/-- A validated character-sheet template.  `statsLabel` comes from an
object spread with a string default, so it is a raw JSON value. -/
structure CharacterSheetTemplate where
  statsLabel : Json
  baseStats : List Json
  customFieldTemplates : List CustomFieldTemplate

/-- A validated rulebook section (all fields `typeof`-checked strings). -/
structure RulebookSection where
  id : String
  title : String
  content : String

/-- A validated random-table template inside a package (`||`-guarded raw
values). -/
structure TableEntryTemplate where
  id : Json
  rollValue : Json
  value : Json

structure RandomTableTemplate where
  id : Json
  name : Json
  diceCommand : Json
  entries : List TableEntryTemplate

/-- A validated resource-tracker template. -/
structure ResourceTrackerTemplate where
  id : Json
  name : Json
  initialValue : Int

/-- A validated game-data package.  Extra object keys preserved by the
source's object spreads are not modelled; no engine code ever reads them. -/
structure GameDataPackage where
  manifest : Manifest
  characterSheetTemplate : CharacterSheetTemplate
  rulebookSections : List RulebookSection
  randomTables : List RandomTableTemplate
  resourceTrackerTemplates : List ResourceTrackerTemplate

/-- The normalized session state. -/
structure SessionState where
  sessionId : String
  playLogEntries : List LogEntry
  playLogTitle : String
  characterSheet : CharacterSheet
  tables : List RandomTable
  resourceTrackers : List ResourceTracker
  diceRollHistory : List DiceRoll
  theme : String
  loadedGameDataPackage : Option GameDataPackage
  gameDataPackageLoadId : Option String

/-! ## Constants (from constants.js and the head of App.js) -/

/-- The keys of `PREDEFINED_COLORS`, in declaration order. -/
def PREDEFINED_COLORS_keys : List String :=
  ["default", "red", "blue", "green", "yellow", "purple"]

/-- The theme values offered by the theme dropdown in SaveLoadControls. -/
def themeOptionValues : List String := ["dark", "light", "earth", "pastel"]

def initialPlayLogTitle : String := "プレイログ"

def initialCharacterSheetValues : CharacterSheet :=
  { name := "キャラクター名"
    image := none
    stats := ""
    statsLabel := Json.str "能力値・詳細"
    customFields := [] }

/-- `window.matchMedia('(prefers-color-scheme: dark)').matches ? 'dark' : 'light'` -/
def initialDefaultTheme (env : Env) : String :=
  if env.prefersDark then "dark" else "light"

def MAX_HISTORY_SIZE : Nat := 10

/-- `DEFAULT_GAME_DATA_PACKAGE_STRUCTURE` from constants.js.  The two
custom-field-template ids are generated by `crypto.randomUUID()` once at
module load; the model takes them from the environment. -/
def DEFAULT_GAME_DATA_PACKAGE_STRUCTURE (env : Env) : GameDataPackage :=
  { manifest :=
      { gameTitle := Json.str "無題のゲーム"
        author := Json.str "不明な作者"
        version := Json.str "1.0.0"
        description := Json.str ""
        srgdVersion := Json.str "1.0" }
    characterSheetTemplate :=
      { statsLabel := Json.str "能力値・詳細"
        baseStats := [Json.str "体力", Json.str "技術", Json.str "知力", Json.str "魅力"]
        customFieldTemplates :=
          [ { id := Json.str env.dfltCftId1, label := Json.str "背景", type := "textarea" }
          , { id := Json.str env.dfltCftId2, label := Json.str "所持金", type := "number" } ] }
    rulebookSections := []
    randomTables := []
    resourceTrackerTemplates := [] }

/-- `getInitialSessionData`: the full default SessionState with a freshly
generated session id.  Returns the new state and the advanced uuid
counter. -/
def getInitialSessionData (env : Env) (c : Nat) : SessionState × Nat :=
  ({ sessionId := env.uuid c
     playLogEntries := []
     playLogTitle := initialPlayLogTitle
     characterSheet := initialCharacterSheetValues
     tables := []
     resourceTrackers := []
     diceRollHistory := []
     theme := initialDefaultTheme env
     loadedGameDataPackage := none
     gameDataPackageLoadId := none }, c + 1)

/-! ## Validator helper coercions -/

/-- `typeof v === 'string' ? v : crypto.randomUUID()` -/
def strOrFresh (env : Env) (v : Option Json) (c : Nat) : String × Nat :=
  match v with
  | some (.str s) => (s, c)
  | _ => (env.uuid c, c + 1)

/-- `typeof v === 'string' ? v : dflt` -/
def strOrDefault (v : Option Json) (dflt : String) : String :=
  match v with
  | some (.str s) => s
  | _ => dflt

/-- `typeof v === 'number' ? v : dflt` -/
def numOrDefault (v : Option Json) (dflt : Int) : Int :=
  match v with
  | some (.num n) => n
  | _ => dflt

/-- `typeof v === 'string' && allowed.includes(v) ? v : dflt` -/
def enumOrDefault (v : Option Json) (allowed : List String) (dflt : String) : String :=
  match v with
  | some (.str s) => if allowed.contains s then s else dflt
  | _ => dflt

/-- `typeof v === 'string' && !isNaN(new Date(v).getTime()) ? v : new Date().toISOString()` -/
def tsOrNow (env : Env) (v : Option Json) : String :=
  match v with
  | some (.str s) => if env.tsValid s then s else env.now
  | _ => env.now

/-- `v || crypto.randomUUID()` (the uuid is only generated when the left
side is falsy, so the counter only advances in that case). -/
def jsOrFresh (env : Env) (v : Option Json) (c : Nat) : Json × Nat :=
  match v with
  | some j => if j.truthy then (j, c) else (Json.str (env.uuid c), c + 1)
  | none => (Json.str (env.uuid c), c + 1)

/-- `v || dflt` with a string default. -/
def jsOrDefault (v : Option Json) (dflt : String) : Json :=
  match v with
  | some j => if j.truthy then j else Json.str dflt
  | none => Json.str dflt

/-! ## validateAndMigrateData

Each sequence field is validated by a recursive function that fuses the
source's `.map(...).filter(x => x !== null)`; an element that the map body
turns into `null` generates no uuid, so the fusion preserves the counter.
The functions validating the arrays nested inside `loadedGameDataPackage`
return `Except Unit` because their map bodies read properties of the raw
element without a null guard, which throws a `TypeError` on a `null`
element. -/

/-- `Array.isArray(v) ? f(v) : dflt` -/
def arrOr {α : Type} (v : Option Json) (f : List Json → α) (dflt : α) : α :=
  match v with
  | some (.arr js) => f js
  | _ => dflt

/-- `Array.isArray(v) ? f(v) : []`, for element validators that can throw. -/
def arrOrE {α : Type} (v : Option Json) (f : List Json → Except Unit (List α × Nat))
    (c : Nat) : Except Unit (List α × Nat) :=
  match v with
  | some (.arr xs) => f xs
  | _ => .ok ([], c)

/-- `v || {}` -/
def objOrEmpty (v : Option Json) : Json :=
  match v with
  | some j => if j.truthy then j else Json.obj []
  | none => Json.obj []

/-- `typeof v === 'string' ? v : null` (also covers the `image` rule, whose
default is `null`). -/
def strOrNull (v : Option Json) : Option String :=
  match v with
  | some (.str s) => some s
  | _ => none

/-- One playLogEntries element (lines 2094–2105). -/
def validateLogEntry (env : Env) (j : Json) (c : Nat) : Option LogEntry × Nat :=
  if j.isObjLike then
    let idc := strOrFresh env (j.getF "id") c
    (some
      { id := idc.1
        content := strOrDefault (j.getF "content") ""
        type := enumOrDefault (j.getF "type") ["normal", "heading"] "normal"
        colorKey := enumOrDefault (j.getF "colorKey") PREDEFINED_COLORS_keys "default"
        timestamp := tsOrNow env (j.getF "timestamp") }, idc.2)
  else (none, c)

def validateLogEntries (env : Env) : List Json → Nat → List LogEntry × Nat
  | [], c => ([], c)
  | j :: js, c =>
      match validateLogEntry env j c with
      | (some e, c') =>
          let (es, c'') := validateLogEntries env js c'
          (e :: es, c'')
      | (none, c') => validateLogEntries env js c'

/-- One customFields element (lines 2117–2121); the body uses optional
chaining (`cf?.id`), never throws, and never yields `null`. -/
def validateCustomField (env : Env) (j : Json) (c : Nat) : CustomField × Nat :=
  let idc := strOrFresh env (j.getF "id") c
  ({ id := idc.1
     fieldName := Json.str (strOrDefault (j.getF "fieldName") "")
     fieldValue := strOrDefault (j.getF "fieldValue") "" }, idc.2)

def validateCustomFields (env : Env) : List Json → Nat → List CustomField × Nat
  | [], c => ([], c)
  | j :: js, c =>
      let (cf, c') := validateCustomField env j c
      let (cfs, c'') := validateCustomFields env js c'
      (cf :: cfs, c'')

/-- One session table entry (lines 2133–2138). -/
def validateTableEntry (env : Env) (j : Json) (c : Nat) : Option TableEntry × Nat :=
  if j.isObjLike then
    let idc := strOrFresh env (j.getF "id") c
    (some
      { id := Json.str idc.1
        value := Json.str (strOrDefault (j.getF "value") "")
        rollValue := (strOrNull (j.getF "rollValue")).map Json.str }, idc.2)
  else (none, c)

def validateTableEntries (env : Env) : List Json → Nat → List TableEntry × Nat
  | [], c => ([], c)
  | j :: js, c =>
      match validateTableEntry env j c with
      | (some e, c') =>
          let (es, c'') := validateTableEntries env js c'
          (e :: es, c'')
      | (none, c') => validateTableEntries env js c'

/-- One session table (lines 2126–2141). -/
def validateTable (env : Env) (j : Json) (c : Nat) : Option RandomTable × Nat :=
  if j.isObjLike then
    let idc := strOrFresh env (j.getF "id") c
    let ent := arrOr (j.getF "entries") (fun es => validateTableEntries env es idc.2) ([], idc.2)
    (some
      { id := Json.str idc.1
        name := Json.str (strOrDefault (j.getF "name") "無名テーブル")
        diceCommand := Json.str (strOrDefault (j.getF "diceCommand") "")
        entries := ent.1 }, ent.2)
  else (none, c)

def validateTables (env : Env) : List Json → Nat → List RandomTable × Nat
  | [], c => ([], c)
  | j :: js, c =>
      match validateTable env j c with
      | (some t, c') =>
          let (ts, c'') := validateTables env js c'
          (t :: ts, c'')
      | (none, c') => validateTables env js c'

/-- One tracker-history record (lines 2152–2160). -/
def validateTrackerHistoryEntry (env : Env) (j : Json) (c : Nat) :
    Option TrackerHistoryEntry × Nat :=
  if j.isObjLike then
    let idc := strOrFresh env (j.getF "id") c
    (some
      { id := idc.1
        timestamp := tsOrNow env (j.getF "timestamp")
        change := numOrDefault (j.getF "change") 0
        previousValue := numOrDefault (j.getF "previousValue") 0
        newValue := numOrDefault (j.getF "newValue") 0
        reason := strOrDefault (j.getF "reason") "" }, idc.2)
  else (none, c)

def validateTrackerHistory (env : Env) : List Json → Nat → List TrackerHistoryEntry × Nat
  | [], c => ([], c)
  | j :: js, c =>
      match validateTrackerHistoryEntry env j c with
      | (some h, c') =>
          let (hs, c'') := validateTrackerHistory env js c'
          (h :: hs, c'')
      | (none, c') => validateTrackerHistory env js c'

/-- One resource tracker (lines 2145–2163). -/
def validateTracker (env : Env) (j : Json) (c : Nat) : Option ResourceTracker × Nat :=
  if j.isObjLike then
    let idc := strOrFresh env (j.getF "id") c
    let hist := arrOr (j.getF "history")
      (fun hs => validateTrackerHistory env hs idc.2) ([], idc.2)
    (some
      { id := idc.1
        name := Json.str (strOrDefault (j.getF "name") "無名リソース")
        value := numOrDefault (j.getF "value") 0
        history := hist.1 }, hist.2)
  else (none, c)

def validateTrackers (env : Env) : List Json → Nat → List ResourceTracker × Nat
  | [], c => ([], c)
  | j :: js, c =>
      match validateTracker env j c with
      | (some t, c') =>
          let (ts, c'') := validateTrackers env js c'
          (t :: ts, c'')
      | (none, c') => validateTrackers env js c'

/-- One dice roll (lines 2167–2176).  `individualRolls` keeps only the
numeric elements of the stored array. -/
def validateDiceRoll (env : Env) (j : Json) (c : Nat) : Option DiceRoll × Nat :=
  if j.isObjLike then
    let idc := strOrFresh env (j.getF "id") c
    (some
      { id := idc.1
        command := strOrDefault (j.getF "command") ""
        individualRolls := arrOr (j.getF "individualRolls")
          (fun ns => ns.filterMap (fun n => match n with | .num m => some m | _ => none)) []
        total := numOrDefault (j.getF "total") 0
        timestamp := tsOrNow env (j.getF "timestamp") }, idc.2)
  else (none, c)

def validateDiceRolls (env : Env) : List Json → Nat → List DiceRoll × Nat
  | [], c => ([], c)
  | j :: js, c =>
      match validateDiceRoll env j c with
      | (some r, c') =>
          let (rs, c'') := validateDiceRolls env js c'
          (r :: rs, c'')
      | (none, c') => validateDiceRolls env js c'

/-- One customFieldTemplates element (lines 2192–2196): the body reads
`cft.id` without a null guard, so a `null` element throws. -/
def validateCft (env : Env) (j : Json) (c : Nat) : Except Unit (CustomFieldTemplate × Nat) :=
  match j with
  | .null => .error ()
  | _ =>
      let idc := jsOrFresh env (j.getF "id") c
      .ok
        ({ id := idc.1
           label := jsOrDefault (j.getF "label") "無題の項目"
           type := enumOrDefault (j.getF "type") ["text", "textarea", "number"] "text" }, idc.2)

def validateCfts (env : Env) :
    List Json → Nat → Except Unit (List CustomFieldTemplate × Nat)
  | [], c => .ok ([], c)
  | j :: js, c =>
      match validateCft env j c with
      | .error e => .error e
      | .ok r =>
          match validateCfts env js r.2 with
          | .error e => .error e
          | .ok rs => .ok (r.1 :: rs.1, rs.2)

/-- One rulebookSections element (lines 2199–2203): reads `section.id`
without a null guard. -/
def validateRulebookSection (env : Env) (j : Json) (c : Nat) :
    Except Unit (RulebookSection × Nat) :=
  match j with
  | .null => .error ()
  | _ =>
      let idc := strOrFresh env (j.getF "id") c
      .ok
        ({ id := idc.1
           title := strOrDefault (j.getF "title") "無題のセクション"
           content := strOrDefault (j.getF "content") "" }, idc.2)

def validateRulebookSections (env : Env) :
    List Json → Nat → Except Unit (List RulebookSection × Nat)
  | [], c => .ok ([], c)
  | j :: js, c =>
      match validateRulebookSection env j c with
      | .error e => .error e
      | .ok r =>
          match validateRulebookSections env js r.2 with
          | .error e => .error e
          | .ok rs => .ok (r.1 :: rs.1, rs.2)

/-- One entries element of a package random table (lines 2208–2212). -/
def validateTableEntryTemplate (env : Env) (j : Json) (c : Nat) :
    Except Unit (TableEntryTemplate × Nat) :=
  match j with
  | .null => .error ()
  | _ =>
      let idc := jsOrFresh env (j.getF "id") c
      .ok
        ({ id := idc.1
           rollValue := jsOrDefault (j.getF "rollValue") ""
           value := jsOrDefault (j.getF "value") "" }, idc.2)

def validateTableEntryTemplates (env : Env) :
    List Json → Nat → Except Unit (List TableEntryTemplate × Nat)
  | [], c => .ok ([], c)
  | j :: js, c =>
      match validateTableEntryTemplate env j c with
      | .error e => .error e
      | .ok r =>
          match validateTableEntryTemplates env js r.2 with
          | .error e => .error e
          | .ok rs => .ok (r.1 :: rs.1, rs.2)

/-- One randomTables element of a package (lines 2204–2213). -/
def validateRandomTableTemplate (env : Env) (j : Json) (c : Nat) :
    Except Unit (RandomTableTemplate × Nat) :=
  match j with
  | .null => .error ()
  | _ =>
      let idc := jsOrFresh env (j.getF "id") c
      match arrOrE (j.getF "entries")
          (fun es => validateTableEntryTemplates env es idc.2) idc.2 with
      | .error e => .error e
      | .ok ent =>
          .ok
            ({ id := idc.1
               name := jsOrDefault (j.getF "name") "無題のテーブル"
               diceCommand := jsOrDefault (j.getF "diceCommand") ""
               entries := ent.1 }, ent.2)

def validateRandomTableTemplates (env : Env) :
    List Json → Nat → Except Unit (List RandomTableTemplate × Nat)
  | [], c => .ok ([], c)
  | j :: js, c =>
      match validateRandomTableTemplate env j c with
      | .error e => .error e
      | .ok r =>
          match validateRandomTableTemplates env js r.2 with
          | .error e => .error e
          | .ok rs => .ok (r.1 :: rs.1, rs.2)

/-- One resourceTrackerTemplates element (lines 2214–2218). -/
def validateTrackerTemplate (env : Env) (j : Json) (c : Nat) :
    Except Unit (ResourceTrackerTemplate × Nat) :=
  match j with
  | .null => .error ()
  | _ =>
      let idc := jsOrFresh env (j.getF "id") c
      .ok
        ({ id := idc.1
           name := jsOrDefault (j.getF "name") "無題のリソース"
           initialValue := numOrDefault (j.getF "initialValue") 0 }, idc.2)

def validateTrackerTemplates (env : Env) :
    List Json → Nat → Except Unit (List ResourceTrackerTemplate × Nat)
  | [], c => .ok ([], c)
  | j :: js, c =>
      match validateTrackerTemplate env j c with
      | .error e => .error e
      | .ok r =>
          match validateTrackerTemplates env js r.2 with
          | .error e => .error e
          | .ok rs => .ok (r.1 :: rs.1, rs.2)

/-- `{...DEFAULT.manifest, ...(pkg.manifest || {})}` restricted to the five
manifest keys: a key present in the stored manifest object wins with its
raw value, otherwise the default applies.  Spreading a non-object
contributes no relevant key. -/
def mergeManifest (v : Option Json) : Manifest :=
  let m := objOrEmpty v
  { gameTitle := (m.getF "gameTitle").getD (Json.str "無題のゲーム")
    author := (m.getF "author").getD (Json.str "不明な作者")
    version := (m.getF "version").getD (Json.str "1.0.0")
    description := (m.getF "description").getD (Json.str "")
    srgdVersion := (m.getF "srgdVersion").getD (Json.str "1.0") }

/-- Validation of a stored `loadedGameDataPackage` object
(lines 2183–2219). -/
def validatePackage (env : Env) (p : Json) (c : Nat) : Except Unit (GameDataPackage × Nat) :=
  let manifest := mergeManifest (p.getF "manifest")
  let cstJ := objOrEmpty (p.getF "characterSheetTemplate")
  let statsLabel := (cstJ.getF "statsLabel").getD (Json.str "能力値・詳細")
  let baseStats :=
    arrOr ((p.getF "characterSheetTemplate").bind (fun j => j.getF "baseStats"))
      (fun xs => xs) []
  match arrOrE ((p.getF "characterSheetTemplate").bind (fun j => j.getF "customFieldTemplates"))
      (fun xs => validateCfts env xs c) c with
  | .error e => .error e
  | .ok cfts =>
    match arrOrE (p.getF "rulebookSections")
        (fun xs => validateRulebookSections env xs cfts.2) cfts.2 with
    | .error e => .error e
    | .ok sections =>
      match arrOrE (p.getF "randomTables")
          (fun xs => validateRandomTableTemplates env xs sections.2) sections.2 with
      | .error e => .error e
      | .ok rtbl =>
        match arrOrE (p.getF "resourceTrackerTemplates")
            (fun xs => validateTrackerTemplates env xs rtbl.2) rtbl.2 with
        | .error e => .error e
        | .ok rtts =>
          .ok
            ({ manifest := manifest
               characterSheetTemplate :=
                 { statsLabel := statsLabel
                   baseStats := baseStats
                   customFieldTemplates := cfts.1 }
               rulebookSections := sections.1
               randomTables := rtbl.1
               resourceTrackerTemplates := rtts.1 }, rtts.2)

/-- The `loadedGameDataPackage` branch (lines 2181–2220): validated when
present, truthy, and of object type; absent otherwise.  Errors propagate
the `TypeError` of `validatePackage`. -/
def validatePackageField (env : Env) (v : Option Json) (c : Nat) :
    Except Unit (Option GameDataPackage × Nat) :=
  match v with
  | some p =>
      if p.truthy && p.isObjLike then
        match validatePackage env p c with
        | .error e => .error e
        | .ok (pkg, c') => .ok (some pkg, c')
      else .ok (none, c)
  | none => .ok (none, c)

/-- Lines 2222–2228: the stored load id (a string or null), forced to a
fresh non-null value when a package is present but the id is falsy, and
forced null when no package is present. -/
def forceLoadId (env : Env) (pkg : Option GameDataPackage) (raw : Option String) (c : Nat) :
    Option String × Nat :=
  match pkg with
  | some _ =>
      match raw with
      | some s => if s = "" then (some (env.uuid c), c + 1) else (some s, c)
      | none => (some (env.uuid c), c + 1)
  | none => (none, c)

/-- `validateAndMigrateData` (lines 2086–2233).  `.error ()` models the
uncaught `TypeError` raised inside the `loadedGameDataPackage` branch when
one of its nested arrays contains a `null` element; every other path is
total.  The uuid counter is threaded in the source's evaluation order: one
uuid for the discarded `getInitialSessionData()` template, one for the
provisional `sessionId` of line 2091, then the per-field validators. -/
def validateAndMigrateData (env : Env) (loadedData : Json) (c : Nat) :
    Except Unit (SessionState × Nat) :=
  if ¬ loadedData.isObjLike then
    -- `!loadedData || typeof loadedData !== 'object'`
    .ok (getInitialSessionData env c)
  else
    let c1 := (getInitialSessionData env c).2
    let c2 := c1 + 1
    let pl := arrOr (loadedData.getF "playLogEntries")
      (fun js => validateLogEntries env js c2) ([], c2)
    let playLogTitle := strOrDefault (loadedData.getF "playLogTitle") initialPlayLogTitle
    -- `const loadedSheet = loadedData.characterSheet || {};`
    let loadedSheet := objOrEmpty (loadedData.getF "characterSheet")
    let cfs := arrOr (loadedSheet.getF "customFields")
      (fun js => validateCustomFields env js pl.2)
      (initialCharacterSheetValues.customFields, pl.2)
    let characterSheet : CharacterSheet :=
      { name := strOrDefault (loadedSheet.getF "name") initialCharacterSheetValues.name
        image := strOrNull (loadedSheet.getF "image")
        stats := strOrDefault (loadedSheet.getF "stats") initialCharacterSheetValues.stats
        statsLabel := Json.str (strOrDefault (loadedSheet.getF "statsLabel") "能力値・詳細")
        customFields := cfs.1 }
    let tbs := arrOr (loadedData.getF "tables")
      (fun js => validateTables env js cfs.2) ([], cfs.2)
    let rts := arrOr (loadedData.getF "resourceTrackers")
      (fun js => validateTrackers env js tbs.2) ([], tbs.2)
    let drs := arrOr (loadedData.getF "diceRollHistory")
      (fun js => validateDiceRolls env js rts.2) ([], rts.2)
    let theme := strOrDefault (loadedData.getF "theme") (initialDefaultTheme env)
    match validatePackageField env (loadedData.getF "loadedGameDataPackage") drs.2 with
    | .error e => .error e
    | .ok pr =>
      let lid := forceLoadId env pr.1
        (strOrNull (loadedData.getF "gameDataPackageLoadId")) pr.2
      let sid := strOrFresh env (loadedData.getF "sessionId") lid.2
      .ok
        ({ sessionId := sid.1
           playLogEntries := pl.1
           playLogTitle := playLogTitle
           characterSheet := characterSheet
           tables := tbs.1
           resourceTrackers := rts.1
           diceRollHistory := drs.1
           theme := theme
           loadedGameDataPackage := pr.1
           gameDataPackageLoadId := lid.1 }, sid.2)

/-! ## HistoryStore (App.js session history state) -/

/-- The App's `sessionHistory` array together with `currentSessionIndex`. -/
structure HistoryState where
  history : List SessionState
  cursor : Nat

/-- `history[cursor]`, the snapshot the UI renders. -/
def HistoryState.current (h : HistoryState) : Option SessionState :=
  h.history.get? h.cursor

/-- `updateHistory` (lines 2277–2313) applied to a ready-made next state:
abort if the state has no truthy `sessionId`; otherwise truncate the
history to `[0..cursor]`, append, drop from the front beyond
`MAX_HISTORY_SIZE`, and move the cursor to the new last index. -/
def updateHistory (h : HistoryState) (newSessionState : SessionState) : HistoryState :=
  if newSessionState.sessionId = "" then h
  else
    let historyUpToCurrent := h.history.take (h.cursor + 1)
    let updatedFullHistory := historyUpToCurrent ++ [newSessionState]
    let updatedFullHistory :=
      if updatedFullHistory.length > MAX_HISTORY_SIZE then
        updatedFullHistory.drop (updatedFullHistory.length - MAX_HISTORY_SIZE)
      else updatedFullHistory
    { history := updatedFullHistory, cursor := updatedFullHistory.length - 1 }

/-- `updateHistory` applied to an updater function: the updater receives
`prevHistory[currentSessionIndex]`.  A cursor outside the history (which
the invariant `cursor < history.length` rules out) is modelled as a
no-op. -/
def commitWith (h : HistoryState) (f : SessionState → SessionState) : HistoryState :=
  match h.history.get? h.cursor with
  | some cur => updateHistory h (f cur)
  | none => h

/-- A sequence of commits through updater functions, oldest first. -/
def commitMany (h : HistoryState) : List (SessionState → SessionState) → HistoryState
  | [] => h
  | f :: fs => commitMany (commitWith h f) fs

/-- `handleUndo` (lines 2468–2470): `Math.max(0, cursor - 1)` (truncated
subtraction on `Nat`). -/
def handleUndo (h : HistoryState) : HistoryState :=
  { h with cursor := h.cursor - 1 }

/-- `handleRedo` (lines 2472–2474): `Math.min(history.length - 1, cursor + 1)`. -/
def handleRedo (h : HistoryState) : HistoryState :=
  { h with cursor := min (h.history.length - 1) (h.cursor + 1) }

/-- Commit of a state-level mutator that also generates ids: the mutator is
given the current snapshot and the uuid counter, and its result goes
through `updateHistory`. -/
def commitMutator (h : HistoryState) (f : SessionState → Nat → SessionState × Nat) (c : Nat) :
    HistoryState × Nat :=
  match h.history.get? h.cursor with
  | some cur =>
      let (s', c') := f cur c
      (updateHistory h s', c')
  | none => (h, c)

/-! ## Domain mutators -/

/-- `addPlayLogEntry` (lines 2316–2340): append a fresh log entry; when the
optional extra update carries a tracker list, replace `resourceTrackers` in
the same new state. -/
def addPlayLogEntry (env : Env) (content : String) (type : String) (colorKey : String)
    (updatesForSession : Option (List ResourceTracker)) (s : SessionState) (c : Nat) :
    SessionState × Nat :=
  let newEntry : LogEntry :=
    { id := env.uuid c
      content := content
      type := type
      colorKey := colorKey
      timestamp := env.now }
  ({ s with
      playLogEntries := s.playLogEntries ++ [newEntry]
      resourceTrackers :=
        match updatesForSession with
        | some ts => ts
        | none => s.resourceTrackers }, c + 1)

/-- The dice-history update of `handleRollDice` (lines 516–524): build the
new roll and prepend it, keeping at most the 19 previous rolls. -/
def handleRollDice (env : Env) (command : String) (individualRolls : List Int) (total : Int)
    (s : SessionState) (c : Nat) : SessionState × Nat :=
  let newRoll : DiceRoll :=
    { id := env.uuid c
      command := command
      individualRolls := individualRolls
      total := total
      timestamp := env.now }
  ({ s with diceRollHistory := newRoll :: s.diceRollHistory.take 19 }, c + 1)

/-- Structural equality of tracker-history records, trackers and tracker
lists, standing in for the `JSON.stringify` comparison in
`handleReflectTrackerChange`. -/
def TrackerHistoryEntry.beq (a b : TrackerHistoryEntry) : Bool :=
  a.id == b.id && a.timestamp == b.timestamp && a.change == b.change &&
  a.previousValue == b.previousValue && a.newValue == b.newValue && a.reason == b.reason

def trackerHistoryBeq : List TrackerHistoryEntry → List TrackerHistoryEntry → Bool
  | [], [] => true
  | x :: xs, y :: ys => TrackerHistoryEntry.beq x y && trackerHistoryBeq xs ys
  | _, _ => false

def ResourceTracker.beq (a b : ResourceTracker) : Bool :=
  a.id == b.id && Json.beq a.name b.name && a.value == b.value &&
  trackerHistoryBeq a.history b.history

def trackerListBeq : List ResourceTracker → List ResourceTracker → Bool
  | [], [] => true
  | x :: xs, y :: ys => ResourceTracker.beq x y && trackerListBeq xs ys
  | _, _ => false

/-- `handleReflectTrackerChange` (lines 1305–1360), as the commit payload
it produces: `some s'` means one state is committed (through
`addPlayLogEntry`'s combined path or `setResourceTrackers`), `none` means
no commit happens.  The internal history record is built — and its id
generated — before any branch is decided, exactly as in the source. -/
def handleReflectTrackerChange (env : Env) (id : String) (newValueFromItem : Int)
    (reason : String) (s : SessionState) (c : Nat) : Option SessionState × Nat :=
  match s.resourceTrackers.find? (fun t => t.id == id) with
  | none => (none, c)
  | some currentTracker =>
      let previousValue := currentTracker.value
      let newValue := newValueFromItem
      let changeAmount := newValue - previousValue
      let trackerName :=
        if currentTracker.name.truthy then jsDisplay currentTracker.name
        else "名称未設定トラッカー"
      let trimmedReason := jsTrim reason
      let logEntryForInternalHistory : TrackerHistoryEntry :=
        { id := env.uuid c
          timestamp := env.now
          change := changeAmount
          previousValue := previousValue
          newValue := newValue
          reason := trimmedReason }
      let c := c + 1
      let newTrackersArray := s.resourceTrackers.map (fun t =>
        if t.id == id then
          { t with value := newValue
                   history := logEntryForInternalHistory :: t.history.take 49 }
        else t)
      let valueActuallyChanged := newValue != previousValue
      let reasonActuallyProvided := trimmedReason != ""
      if valueActuallyChanged || reasonActuallyProvided then
        let logMessage :=
          if valueActuallyChanged then
            "リソース「" ++ trackerName ++ "」変更: " ++ toString previousValue ++ " → " ++
              toString newValue ++ " (" ++ (if changeAmount > 0 then "+" else "") ++
              toString changeAmount ++ ")" ++
              (if trimmedReason != "" then " 理由: " ++ trimmedReason else "")
          else
            "リソース「" ++ trackerName ++ "」確認: " ++ toString newValue ++
              (if trimmedReason != "" then " 理由: " ++ trimmedReason else "")
        let (s', c') := addPlayLogEntry env logMessage "normal" "default"
          (some newTrackersArray) s c
        (some s', c')
      else
        if trackerListBeq newTrackersArray s.resourceTrackers then (none, c)
        else (some { s with resourceTrackers := newTrackersArray }, c)

/-- `handleReflect` (lines 1131–1154) at the history level, after the
staged-value string has been parsed: an empty or non-numeric staged value
falls back to `tracker.value` upstream, so the parsed value arrives here as
`finalNumericValue`.  Only when the value changed or a non-empty (trimmed)
reason was given is `handleReflectTrackerChange` invoked, whose payload is
then committed through `updateHistory`. -/
def handleReflect (env : Env) (id : String) (finalNumericValue : Int) (stagedReason : String)
    (h : HistoryState) (c : Nat) : HistoryState × Nat :=
  match h.current with
  | none => (h, c)
  | some s =>
      match s.resourceTrackers.find? (fun t => t.id == id) with
      | none => (h, c)
      | some tracker =>
          let trimmedReason := jsTrim stagedReason
          if finalNumericValue != tracker.value || trimmedReason != "" then
            match handleReflectTrackerChange env id finalNumericValue trimmedReason s c with
            | (some s', c') => (updateHistory h s', c')
            | (none, c') => (h, c')
          else (h, c)

/-- Conversion of a package random-table template into a session table:
`JSON.parse(JSON.stringify(gameDataPkg.randomTables))` is the identity on
JSON-shaped data, with every `rollValue` key present. -/
def tableOfTemplate (t : RandomTableTemplate) : RandomTable :=
  { id := t.id
    name := t.name
    diceCommand := t.diceCommand
    entries := t.entries.map (fun e =>
      { id := e.id, value := e.value, rollValue := some e.rollValue }) }

/-- `!effectiveLoadId`: absent or empty-string load ids are falsy. -/
def loadIdFalsy : Option String → Bool
  | none => true
  | some s => s == ""

/-- Custom fields created from a package's field templates
(lines 2427–2431). -/
def customFieldsOfTemplates (env : Env) :
    List CustomFieldTemplate → Nat → List CustomField × Nat
  | [], c => ([], c)
  | t :: ts, c =>
      let cf : CustomField :=
        { id := env.uuid c
          fieldName := t.label
          fieldValue := if t.type == "number" then "0" else "" }
      let (cfs, c') := customFieldsOfTemplates env ts (c + 1)
      (cf :: cfs, c')

/-- Trackers created from a package's tracker templates (lines 2435–2440). -/
def trackersOfTemplates (env : Env) :
    List ResourceTrackerTemplate → Nat → List ResourceTracker × Nat
  | [], c => ([], c)
  | t :: ts, c =>
      let tr : ResourceTracker :=
        { id := env.uuid c
          name := t.name
          value := t.initialValue
          history := [] }
      let (trs, c') := trackersOfTemplates env ts (c + 1)
      (tr :: trs, c')

/-- `setLoadedGameDataPackage` (lines 2415–2466).  Loading a package always
overwrites `statsLabel` from the template (a validated package always has a
`characterSheetTemplate` object, so the source's truthiness guard on it
holds), fills `customFields` only when currently empty (the template array
itself is always truthy, even when empty), and fills `resourceTrackers` /
`tables` only when currently empty and the corresponding template list is
non-empty.  Clearing (`pkg = null`) resets those fields to the application
defaults and nulls the load id. -/
def setLoadedGameDataPackage (env : Env) (gameDataPkg : Option GameDataPackage)
    (newLoadIdOverride : Option String) (s : SessionState) (c : Nat) : SessionState × Nat :=
  match gameDataPkg with
  | some pkg =>
      let csTemplate := pkg.characterSheetTemplate
      let statsLabel :=
        if csTemplate.statsLabel.truthy then csTemplate.statsLabel
        else initialCharacterSheetValues.statsLabel
      let (customFields, c) :=
        if s.characterSheet.customFields.length = 0 then
          customFieldsOfTemplates env csTemplate.customFieldTemplates c
        else (s.characterSheet.customFields, c)
      let (updatedTrackers, c) :=
        if s.resourceTrackers.length = 0 ∧ pkg.resourceTrackerTemplates.length > 0 then
          trackersOfTemplates env pkg.resourceTrackerTemplates c
        else (s.resourceTrackers, c)
      let updatedTables :=
        if s.tables.length = 0 ∧ pkg.randomTables.length > 0 then
          pkg.randomTables.map tableOfTemplate
        else s.tables
      let (effectiveLoadId, c) :=
        if loadIdFalsy newLoadIdOverride then
          if loadIdFalsy s.gameDataPackageLoadId then (some (env.uuid c), c + 1)
          else (s.gameDataPackageLoadId, c)
        else (newLoadIdOverride, c)
      ({ s with
          loadedGameDataPackage := some pkg
          gameDataPackageLoadId := effectiveLoadId
          characterSheet := { s.characterSheet with
                                statsLabel := statsLabel
                                customFields := customFields }
          resourceTrackers := updatedTrackers
          tables := updatedTables }, c)
  | none =>
      ({ s with
          loadedGameDataPackage := none
          gameDataPackageLoadId := none
          characterSheet := { s.characterSheet with
                                statsLabel := initialCharacterSheetValues.statsLabel
                                customFields := initialCharacterSheetValues.customFields }
          resourceTrackers := []
          tables := [] }, c)

/-- `handleLoadGameDataPackageFile` (lines 2519–2544), after the file has
been read and `JSON.parse` has succeeded: the parsed value is validated
under a synthetic `{loadedGameDataPackage: ...}` wrapper; a validation
`TypeError`, an absent validated package, or a falsy validated
`manifest.gameTitle` all land in the catch/rejection path, which commits
`setLoadedGameDataPackage(null, null)`.  On success a fresh load id is
generated and the validated package is committed.  (On the caught-error
path the exact number of uuids consumed before the throw is not tracked;
nothing observable depends on it.) -/
def handleLoadGameDataPackageFile (env : Env) (fileJson : Json) (h : HistoryState) (c : Nat) :
    HistoryState × Nat :=
  match validateAndMigrateData env (Json.obj [("loadedGameDataPackage", fileJson)]) c with
  | .error _ => commitMutator h (setLoadedGameDataPackage env none none) c
  | .ok (validated, c1) =>
      match validated.loadedGameDataPackage with
      | none => commitMutator h (setLoadedGameDataPackage env none none) c1
      | some pkg =>
          if pkg.manifest.gameTitle.truthy then
            let newLoadId := env.uuid c1
            commitMutator h (setLoadedGameDataPackage env (some pkg) (some newLoadId)) (c1 + 1)
          else commitMutator h (setLoadedGameDataPackage env none none) c1

/-! ## Serialization (`JSON.stringify` of a SessionState)

Keys are written in the insertion order of the source objects; an absent
optional (`undefined`) key is omitted, a `null` value is kept. -/

def LogEntry.toJson (e : LogEntry) : Json :=
  .obj [("id", .str e.id), ("content", .str e.content), ("type", .str e.type),
        ("colorKey", .str e.colorKey), ("timestamp", .str e.timestamp)]

def CustomField.toJson (cf : CustomField) : Json :=
  .obj [("id", .str cf.id), ("fieldName", cf.fieldName), ("fieldValue", .str cf.fieldValue)]

def CharacterSheet.toJson (cs : CharacterSheet) : Json :=
  .obj [("name", .str cs.name),
        ("image", match cs.image with | some s => .str s | none => .null),
        ("stats", .str cs.stats),
        ("statsLabel", cs.statsLabel),
        ("customFields", .arr (cs.customFields.map CustomField.toJson))]

def TableEntry.toJson (e : TableEntry) : Json :=
  .obj ([("id", e.id), ("value", e.value)] ++
        (match e.rollValue with | some v => [("rollValue", v)] | none => []))

def RandomTable.toJson (t : RandomTable) : Json :=
  .obj [("id", t.id), ("name", t.name), ("diceCommand", t.diceCommand),
        ("entries", .arr (t.entries.map TableEntry.toJson))]

def TrackerHistoryEntry.toJson (e : TrackerHistoryEntry) : Json :=
  .obj [("id", .str e.id), ("timestamp", .str e.timestamp), ("change", .num e.change),
        ("previousValue", .num e.previousValue), ("newValue", .num e.newValue),
        ("reason", .str e.reason)]

def ResourceTracker.toJson (t : ResourceTracker) : Json :=
  .obj [("id", .str t.id), ("name", t.name), ("value", .num t.value),
        ("history", .arr (t.history.map TrackerHistoryEntry.toJson))]

def DiceRoll.toJson (r : DiceRoll) : Json :=
  .obj [("id", .str r.id), ("command", .str r.command),
        ("individualRolls", .arr (r.individualRolls.map Json.num)),
        ("total", .num r.total), ("timestamp", .str r.timestamp)]

def Manifest.toJson (m : Manifest) : Json :=
  .obj [("gameTitle", m.gameTitle), ("author", m.author), ("version", m.version),
        ("description", m.description), ("srgdVersion", m.srgdVersion)]

def CustomFieldTemplate.toJson (t : CustomFieldTemplate) : Json :=
  .obj [("id", t.id), ("label", t.label), ("type", .str t.type)]

def CharacterSheetTemplate.toJson (t : CharacterSheetTemplate) : Json :=
  .obj [("statsLabel", t.statsLabel), ("baseStats", .arr t.baseStats),
        ("customFieldTemplates", .arr (t.customFieldTemplates.map CustomFieldTemplate.toJson))]

def RulebookSection.toJson (s : RulebookSection) : Json :=
  .obj [("id", .str s.id), ("title", .str s.title), ("content", .str s.content)]

def TableEntryTemplate.toJson (e : TableEntryTemplate) : Json :=
  .obj [("id", e.id), ("rollValue", e.rollValue), ("value", e.value)]

def RandomTableTemplate.toJson (t : RandomTableTemplate) : Json :=
  .obj [("id", t.id), ("name", t.name), ("diceCommand", t.diceCommand),
        ("entries", .arr (t.entries.map TableEntryTemplate.toJson))]

def ResourceTrackerTemplate.toJson (t : ResourceTrackerTemplate) : Json :=
  .obj [("id", t.id), ("name", t.name), ("initialValue", .num t.initialValue)]

def GameDataPackage.toJson (p : GameDataPackage) : Json :=
  .obj [("manifest", p.manifest.toJson),
        ("characterSheetTemplate", p.characterSheetTemplate.toJson),
        ("rulebookSections", .arr (p.rulebookSections.map RulebookSection.toJson)),
        ("randomTables", .arr (p.randomTables.map RandomTableTemplate.toJson)),
        ("resourceTrackerTemplates", .arr (p.resourceTrackerTemplates.map ResourceTrackerTemplate.toJson))]

def SessionState.toJson (s : SessionState) : Json :=
  .obj [("sessionId", .str s.sessionId),
        ("playLogEntries", .arr (s.playLogEntries.map LogEntry.toJson)),
        ("playLogTitle", .str s.playLogTitle),
        ("characterSheet", s.characterSheet.toJson),
        ("tables", .arr (s.tables.map RandomTable.toJson)),
        ("resourceTrackers", .arr (s.resourceTrackers.map ResourceTracker.toJson)),
        ("diceRollHistory", .arr (s.diceRollHistory.map DiceRoll.toJson)),
        ("theme", .str s.theme),
        ("loadedGameDataPackage",
          match s.loadedGameDataPackage with | some p => p.toJson | none => .null),
        ("gameDataPackageLoadId",
          match s.gameDataPackageLoadId with | some l => .str l | none => .null)]

/-! ## Validity predicates -/

def Json.isStr : Json → Bool
  | .str _ => true
  | _ => false

def Json.isNull : Json → Bool
  | .null => true
  | _ => false

/-- A raw value `j` is stable under `j || ""`: it is truthy, or already the
empty string. -/
def orEmptyStable (j : Json) : Bool :=
  j.truthy || (match j with | .str s => s == "" | _ => false)

/-- A stored log entry whose fields survive re-validation unchanged. -/
def LogEntry.validB (env : Env) (e : LogEntry) : Bool :=
  ["normal", "heading"].contains e.type &&
  PREDEFINED_COLORS_keys.contains e.colorKey &&
  env.tsValid e.timestamp

def CustomField.validB (cf : CustomField) : Bool := cf.fieldName.isStr

def CharacterSheet.validB (cs : CharacterSheet) : Bool :=
  cs.statsLabel.isStr && cs.customFields.all CustomField.validB

def TableEntry.validB (e : TableEntry) : Bool :=
  e.id.isStr && e.value.isStr &&
  (match e.rollValue with | none => true | some v => v.isStr)

def RandomTable.validB (t : RandomTable) : Bool :=
  t.id.isStr && t.name.isStr && t.diceCommand.isStr && t.entries.all TableEntry.validB

def TrackerHistoryEntry.validB (env : Env) (e : TrackerHistoryEntry) : Bool :=
  env.tsValid e.timestamp

def ResourceTracker.validB (env : Env) (t : ResourceTracker) : Bool :=
  t.name.isStr && t.history.all (TrackerHistoryEntry.validB env)

def DiceRoll.validB (env : Env) (r : DiceRoll) : Bool := env.tsValid r.timestamp

def CustomFieldTemplate.validB (t : CustomFieldTemplate) : Bool :=
  t.id.truthy && t.label.truthy && ["text", "textarea", "number"].contains t.type

def TableEntryTemplate.validB (e : TableEntryTemplate) : Bool :=
  e.id.truthy && orEmptyStable e.rollValue && orEmptyStable e.value

def RandomTableTemplate.validB (t : RandomTableTemplate) : Bool :=
  t.id.truthy && t.name.truthy && orEmptyStable t.diceCommand &&
  t.entries.all TableEntryTemplate.validB

def ResourceTrackerTemplate.validB (t : ResourceTrackerTemplate) : Bool :=
  t.id.truthy && t.name.truthy

def GameDataPackage.validB (p : GameDataPackage) : Bool :=
  p.characterSheetTemplate.customFieldTemplates.all CustomFieldTemplate.validB &&
  p.randomTables.all RandomTableTemplate.validB &&
  p.resourceTrackerTemplates.all ResourceTrackerTemplate.validB

/-- A structurally valid SessionState, as the engine itself produces them:
every field that the validator would type-check has the checked shape, and
`gameDataPackageLoadId` is a non-empty string exactly when a package is
loaded. -/
def SessionState.validB (env : Env) (s : SessionState) : Bool :=
  s.playLogEntries.all (LogEntry.validB env) &&
  s.characterSheet.validB &&
  s.tables.all RandomTable.validB &&
  s.resourceTrackers.all (ResourceTracker.validB env) &&
  s.diceRollHistory.all (DiceRoll.validB env) &&
  (match s.loadedGameDataPackage, s.gameDataPackageLoadId with
   | some p, some l => p.validB && l != ""
   | none, none => true
   | _, _ => false)

/-- Inputs on which `validateAndMigrateData` cannot throw: whenever the
`loadedGameDataPackage` branch is entered, none of its nested arrays
(custom-field templates, rulebook sections, random tables with their
entries, tracker templates) contains a `null` element. -/
def packageElemsNonNull (p : Json) : Bool :=
  (match (p.getF "characterSheetTemplate").bind (fun j => j.getF "customFieldTemplates") with
   | some (.arr xs) => xs.all (fun x => !x.isNull)
   | _ => true) &&
  (match p.getF "rulebookSections" with
   | some (.arr xs) => xs.all (fun x => !x.isNull)
   | _ => true) &&
  (match p.getF "randomTables" with
   | some (.arr xs) =>
       xs.all (fun x => !x.isNull &&
         (match x.getF "entries" with
          | some (.arr es) => es.all (fun e => !e.isNull)
          | _ => true))
   | _ => true) &&
  (match p.getF "resourceTrackerTemplates" with
   | some (.arr xs) => xs.all (fun x => !x.isNull)
   | _ => true)

def validateInputSafe (j : Json) : Bool :=
  match j.getF "loadedGameDataPackage" with
  | some p => !(p.truthy && p.isObjLike) || packageElemsNonNull p
  | none => true

/-- The structural facts the validator guarantees about its output (used to
express "returns a structurally valid SessionState"). -/
def validatorShapedB (s : SessionState) : Bool :=
  s.playLogEntries.all (fun e =>
    ["normal", "heading"].contains e.type && PREDEFINED_COLORS_keys.contains e.colorKey) &&
  s.characterSheet.statsLabel.isStr &&
  s.tables.all RandomTable.validB &&
  s.resourceTrackers.all (fun t => t.name.isStr) &&
  (match s.loadedGameDataPackage, s.gameDataPackageLoadId with
   | some p, some _ =>
       p.characterSheetTemplate.customFieldTemplates.all (fun t =>
         ["text", "textarea", "number"].contains t.type)
   | none, none => true
   | _, _ => false)

/-! ## Concrete instances used by witnesses and counterexamples -/

/-- A concrete environment: an injective uuid stream, a fixed clock, and a
stand-in notion of parseable instants (non-empty strings). -/
def env0 : Env :=
  { uuid := fun n => "gen-" ++ toString n
    now := "2025-01-01T00:00:00.000Z"
    tsValid := fun ts => ts != ""
    prefersDark := true
    dfltCftId1 := "dflt-cft-1"
    dfltCftId2 := "dflt-cft-2" }

/-- A minimal structurally valid SessionState distinguished by its
play-log title. -/
def mkState (title : String) : SessionState :=
  { sessionId := "session-0"
    playLogEntries := []
    playLogTitle := title
    characterSheet := initialCharacterSheetValues
    tables := []
    resourceTrackers := []
    diceRollHistory := []
    theme := "dark"
    loadedGameDataPackage := none
    gameDataPackageLoadId := none }

/-! ## HistoryStore lemmas -/

lemma take_pred_succ (hist : List SessionState) (hne : hist ≠ []) :
    hist.take ((hist.length - 1) + 1) = hist := by
  have h : hist.length - 1 + 1 = hist.length :=
    Nat.succ_pred_eq_of_pos (List.length_pos.mpr hne)
  rw [h, List.take_length]

/-- `updateHistory` from a cursor at the last index: plain append followed
by capacity truncation. -/
lemma updateHistory_linear (hist : List SessionState) (d : SessionState)
    (hne : hist ≠ []) (hd : d.sessionId ≠ "") :
    updateHistory ⟨hist, hist.length - 1⟩ d =
      ⟨if (hist ++ [d]).length > 10 then
          (hist ++ [d]).drop ((hist ++ [d]).length - 10)
        else hist ++ [d],
       (if (hist ++ [d]).length > 10 then
          (hist ++ [d]).drop ((hist ++ [d]).length - 10)
        else hist ++ [d]).length - 1⟩ := by
  simp only [updateHistory, if_neg hd, MAX_HISTORY_SIZE]
  rw [take_pred_succ hist hne]

/-- The linear-commit invariant: starting at the last index of a non-empty
history within capacity, a sequence of commits whose results always carry a
session id keeps the cursor at the last index, grows the history to
`min (len + N) 10`, and ends on the fold of the transforms. -/
lemma commitMany_linear (fs : List (SessionState → SessionState))
    (hids : ∀ f ∈ fs, ∀ s, (f s).sessionId ≠ "") :
    ∀ (hist : List SessionState) (x : SessionState), hist ≠ [] → hist.length ≤ 10 →
      hist.getLast? = some x →
      (commitMany ⟨hist, hist.length - 1⟩ fs).history.length = min (hist.length + fs.length) 10 ∧
      (commitMany ⟨hist, hist.length - 1⟩ fs).cursor
        = (commitMany ⟨hist, hist.length - 1⟩ fs).history.length - 1 ∧
      (commitMany ⟨hist, hist.length - 1⟩ fs).history.getLast?
        = some (fs.foldl (fun s f => f s) x) := by
  induction fs with
  | nil =>
      intro hist x hne hlen hlast
      refine ⟨?_, rfl, hlast⟩
      simp only [commitMany, List.length_nil, Nat.add_zero]
      omega
  | cons f fs ih =>
      intro hist x hne hlen hlast
      have hfx : (f x).sessionId ≠ "" := hids f (List.mem_cons_self f fs) x
      have hids' : ∀ g ∈ fs, ∀ s, (g s).sessionId ≠ "" :=
        fun g hg s => hids g (List.mem_cons_of_mem f hg) s
      have hget : hist.get? (hist.length - 1) = some x := by
        rw [← List.getLast?_eq_get?]; exact hlast
      have hstep : commitMany ⟨hist, hist.length - 1⟩ (f :: fs)
          = commitMany (updateHistory ⟨hist, hist.length - 1⟩ (f x)) fs := by
        simp only [commitMany, commitWith, hget]
      rw [hstep, updateHistory_linear hist (f x) hne hfx]
      set hist' := if (hist ++ [f x]).length > 10 then
          (hist ++ [f x]).drop ((hist ++ [f x]).length - 10)
        else hist ++ [f x] with hhist'
      have hlen' : hist'.length = min (hist.length + 1) 10 := by
        rw [hhist']
        by_cases hgt : (hist ++ [f x]).length > 10
        · rw [if_pos hgt]
          simp only [List.length_drop, List.length_append, List.length_singleton] at hgt ⊢
          omega
        · rw [if_neg hgt]
          simp only [List.length_append, List.length_singleton] at hgt ⊢
          omega
      have hne' : hist' ≠ [] := by
        intro hcontra
        have := congrArg List.length hcontra
        rw [hlen'] at this
        simp only [List.length_nil] at this
        omega
      have hlast' : hist'.getLast? = some (f x) := by
        rw [hhist']
        split
        · next hgt =>
            have hle : (hist ++ [f x]).length - 10 ≤ hist.length := by
              simp only [List.length_append, List.length_singleton] at hgt ⊢
              omega
            rw [List.drop_append_of_le_length hle, List.getLast?_concat]
        · exact List.getLast?_concat hist
      have hlen'10 : hist'.length ≤ 10 := by rw [hlen']; omega
      have := ih hids' hist' (f x) hne' hlen'10 hlast'
      rcases this with ⟨h1, h2, h3⟩
      refine ⟨?_, h2, ?_⟩
      · rw [h1, hlen']
        simp only [List.length_cons]
        omega
      · rw [h3]
        rfl

/-- C2: for every sequence of N commits (N ≤ 10) from a fresh one-snapshot
history, the history length equals min(N+1, 10), the cursor is the last
index, and the current snapshot is the fold of the transforms over the
initial snapshot (front-truncation beyond capacity included in the length
bound). -/
theorem C2_commit_sequence (s0 : SessionState) (fs : List (SessionState → SessionState))
    (hids : ∀ f ∈ fs, ∀ s, (f s).sessionId ≠ "") (hN : fs.length ≤ 10) :
    (commitMany ⟨[s0], 0⟩ fs).history.length = min (fs.length + 1) 10 ∧
    (commitMany ⟨[s0], 0⟩ fs).cursor = (commitMany ⟨[s0], 0⟩ fs).history.length - 1 ∧
    (commitMany ⟨[s0], 0⟩ fs).current = some (fs.foldl (fun s f => f s) s0) := by
  have h := commitMany_linear fs hids [s0] s0 (by simp) (by simp) (by simp)
  obtain ⟨h1, h2, h3⟩ := h
  refine ⟨?_, ?_, ?_⟩
  · have : (1 : Nat) + fs.length = fs.length + 1 := Nat.add_comm 1 fs.length
    simpa [this] using h1
  · exact h2
  · show (commitMany ⟨[s0], 0⟩ fs).history.get? (commitMany ⟨[s0], 0⟩ fs).cursor = _
    have h2' : (commitMany ⟨[s0], 0⟩ fs).cursor
        = (commitMany ⟨[s0], 0⟩ fs).history.length - 1 := h2
    rw [h2', ← List.getLast?_eq_get?]
    exact h3

/-- Witness for C2 at one concrete commit on a concrete initial state. -/
theorem C2_commit_sequence_witness :
    (commitMany ⟨[mkState "A"], 0⟩
        [fun s => { s with sessionId := "sid-1" }]).history.length = min (1 + 1) 10 ∧
    (commitMany ⟨[mkState "A"], 0⟩ [fun s => { s with sessionId := "sid-1" }]).cursor
      = (commitMany ⟨[mkState "A"], 0⟩
          [fun s => { s with sessionId := "sid-1" }]).history.length - 1 ∧
    (commitMany ⟨[mkState "A"], 0⟩ [fun s => { s with sessionId := "sid-1" }]).current
      = some ([fun s => { s with sessionId := "sid-1" }].foldl
          (fun s f => f s) (mkState "A")) := by
  refine C2_commit_sequence (mkState "A") _ ?_ (by decide)
  intro f hf s
  simp only [List.mem_singleton] at hf
  subst hf
  simp

/-- C8: a commit while the cursor is not at the last index discards every
snapshot after the cursor before appending the new one, and a redo right
after it is a no-op. -/
theorem C8_commit_after_undo (h : HistoryState) (d : SessionState)
    (hlen : h.history.length ≤ 10) (hcur : h.cursor + 1 < h.history.length)
    (hid : d.sessionId ≠ "") :
    (updateHistory h d).history = h.history.take (h.cursor + 1) ++ [d] ∧
    handleRedo (updateHistory h d) = updateHistory h d := by
  have hlen' : (h.history.take (h.cursor + 1) ++ [d]).length = h.cursor + 2 := by
    simp only [List.length_append, List.length_take, List.length_singleton]
    omega
  have hnotgt : ¬ (h.history.take (h.cursor + 1) ++ [d]).length > 10 := by
    rw [hlen']; omega
  have hupd : updateHistory h d =
      ⟨h.history.take (h.cursor + 1) ++ [d],
       (h.history.take (h.cursor + 1) ++ [d]).length - 1⟩ := by
    simp only [updateHistory, if_neg hid, MAX_HISTORY_SIZE]
    rw [if_neg hnotgt]
  refine ⟨by rw [hupd], ?_⟩
  rw [hupd]
  simp only [handleRedo]
  congr 1
  rw [hlen']
  omega

/-- Witness for C8: history [A, B, C] with the cursor moved back to index
1 (as after an undo), then a commit of D. -/
theorem C8_commit_after_undo_witness :
    (updateHistory ⟨[mkState "A", mkState "B", mkState "C"], 1⟩ (mkState "D")).history
      = [mkState "A", mkState "B", mkState "C"].take (1 + 1) ++ [mkState "D"] ∧
    handleRedo (updateHistory ⟨[mkState "A", mkState "B", mkState "C"], 1⟩ (mkState "D"))
      = updateHistory ⟨[mkState "A", mkState "B", mkState "C"], 1⟩ (mkState "D") := by
  refine C8_commit_after_undo ⟨[mkState "A", mkState "B", mkState "C"], 1⟩ (mkState "D")
    (by decide) (by decide) ?_
  decide

/-- C9 (counterexample): from the reachable position with history [A, B]
and cursor 0, undo is a no-op but redo then advances to B, so undo-then-redo
does not return to the same snapshot. -/
theorem C9_counterexample :
    ((handleRedo (handleUndo (handleUndo
        (updateHistory ⟨[mkState "A"], 0⟩ (mkState "B"))))).current).map
        SessionState.playLogTitle = some "B" ∧
    ((handleUndo (updateHistory ⟨[mkState "A"], 0⟩ (mkState "B"))).current).map
        SessionState.playLogTitle = some "A" :=
  ⟨rfl, rfl⟩

/-- C9 (amended): undo followed by redo with no intervening commit returns
to the very same history-and-cursor state — hence the same snapshot —
from every position whose cursor is positive; at cursor 0 (where undo is a
no-op) redo instead advances to index 1 when one exists. -/
theorem C9_undo_redo (h : HistoryState) (hpos : 0 < h.cursor)
    (hlt : h.cursor < h.history.length) :
    handleRedo (handleUndo h) = h := by
  simp only [handleUndo, handleRedo]
  congr 1
  omega

/-- Witness for C9 at history [A, B] with cursor 1. -/
theorem C9_undo_redo_witness :
    handleRedo (handleUndo ⟨[mkState "A", mkState "B"], 1⟩)
      = (⟨[mkState "A", mkState "B"], 1⟩ : HistoryState) :=
  C9_undo_redo ⟨[mkState "A", mkState "B"], 1⟩ (by decide) (by decide)

/-! ## C4: history bounds -/

/-- A stored session whose diceRollHistory has 21 (vacuous but object-shaped)
entries and whose single tracker carries 51 history records. -/
def oversizedInput : Json :=
  .obj [("diceRollHistory", .arr (List.replicate 21 (Json.obj []))),
        ("resourceTrackers", .arr [Json.obj [("history",
            .arr (List.replicate 51 (Json.obj [])))]])]

/-- C4 (counterexample): `validateAndMigrateData` does not truncate either
history: 21 stored dice rolls and 51 stored tracker records all survive
validation. -/
theorem C4_counterexample :
    (match validateAndMigrateData env0 oversizedInput 0 with
     | .ok (s, _) => (s.diceRollHistory.length,
                      s.resourceTrackers.map (fun t => t.history.length))
     | .error _ => (0, [])) = (21, [51]) := rfl

lemma mem_adjusted_trackers {trackers : List ResourceTracker}
    {e : TrackerHistoryEntry} {id : String} {w : Int} {t' : ResourceTracker}
    (h : t' ∈ trackers.map (fun t =>
      if t.id == id then { t with value := w, history := e :: t.history.take 49 } else t)) :
    t'.history.length ≤ 50 ∨ t' ∈ trackers := by
  obtain ⟨t, ht, rfl⟩ := List.mem_map.mp h
  by_cases hid : (t.id == id) = true
  · left
    simp only [hid, if_true, List.length_cons, List.length_take]
    omega
  · right
    simp only [Bool.not_eq_true] at hid
    simp only [hid, Bool.false_eq_true, if_false]
    exact ht

/-- C4 (amended): a dice roll always leaves at most 20 rolls in the dice
history, and a tracker adjustment that commits a new state keeps every
tracker's history within 50 records whenever the previous state did —
`validateAndMigrateData` itself enforces neither bound (see the
counterexample). -/
theorem C4_engine_bounds (env : Env) (command : String) (rolls : List Int) (total : Int)
    (s : SessionState) (c c2 : Nat) (id : String) (v : Int) (reason : String)
    (s' : SessionState) (c' : Nat)
    (hadj : handleReflectTrackerChange env id v reason s c = (some s', c'))
    (hbound : s.resourceTrackers.all (fun t => decide (t.history.length ≤ 50)) = true) :
    (handleRollDice env command rolls total s c2).1.diceRollHistory.length ≤ 20 ∧
    s'.resourceTrackers.all (fun t => decide (t.history.length ≤ 50)) = true := by
  constructor
  · simp only [handleRollDice, List.length_cons, List.length_take]
    omega
  · have htr : ∀ t' ∈ s'.resourceTrackers, t'.history.length ≤ 50 ∨ t' ∈ s.resourceTrackers := by
      intro t' ht'
      rw [List.all_eq_true] at hbound
      simp only [handleReflectTrackerChange] at hadj
      rcases hf : s.resourceTrackers.find? (fun t => t.id == id) with _ | tr
      · rw [hf] at hadj
        simp at hadj
      · rw [hf] at hadj
        simp only [addPlayLogEntry] at hadj
        split at hadj
        · simp only [Prod.mk.injEq, Option.some.injEq] at hadj
          obtain ⟨h1, -⟩ := hadj
          subst h1
          exact mem_adjusted_trackers ht'
        · split at hadj
          · simp at hadj
          · simp only [Prod.mk.injEq, Option.some.injEq] at hadj
            obtain ⟨h1, -⟩ := hadj
            subst h1
            exact mem_adjusted_trackers ht'
    rw [List.all_eq_true]
    intro t' ht'
    rcases htr t' ht' with hle | hmem
    · simpa using hle
    · rw [List.all_eq_true] at hbound
      exact hbound t' hmem

/-- A tracker at value 5 and a session holding just it. -/
def trackerT : ResourceTracker :=
  { id := "T", name := Json.str "HP", value := 5, history := [] }

def trackerState : SessionState := { mkState "A" with resourceTrackers := [trackerT] }

/-- The state committed by adjusting `trackerT` from 5 to 7 with an empty
reason under `env0`, starting the uuid counter at 0. -/
def adjState : SessionState :=
  { trackerState with
      playLogEntries :=
        [{ id := "gen-1"
           content := "リソース「HP」変更: 5 → 7 (+2)"
           type := "normal"
           colorKey := "default"
           timestamp := "2025-01-01T00:00:00.000Z" }]
      resourceTrackers :=
        [{ trackerT with
             value := 7
             history :=
               [{ id := "gen-0"
                  timestamp := "2025-01-01T00:00:00.000Z"
                  change := 2
                  previousValue := 5
                  newValue := 7
                  reason := "" }] }] }

/-- Witness for C4 on the concrete 5 → 7 adjustment and a concrete roll. -/
theorem C4_engine_bounds_witness :
    (handleRollDice env0 "2d6" [1, 2] 3 trackerState 0).1.diceRollHistory.length ≤ 20 ∧
    adjState.resourceTrackers.all (fun t => decide (t.history.length ≤ 50)) = true :=
  C4_engine_bounds env0 "2d6" [1, 2] 3 trackerState 0 0 "T" 7 "" adjState 2 (by rfl) (by rfl)

/-! ## C7: loadGameDataPackage frame conditions -/

lemma trackersOfTemplates_proj (env : Env) (ts : List ResourceTrackerTemplate) :
    ∀ c, (trackersOfTemplates env ts c).1.map (fun t => (t.name, t.value, t.history))
      = ts.map (fun tm => (tm.name, tm.initialValue, ([] : List TrackerHistoryEntry))) := by
  induction ts with
  | nil => intro c; rfl
  | cons t ts ih =>
      intro c
      simp only [trackersOfTemplates, List.map_cons]
      rcases hrec : trackersOfTemplates env ts (c + 1) with ⟨trs, c'⟩
      simp only [hrec, List.map_cons, List.cons.injEq]
      refine ⟨by trivial, ?_⟩
      have := ih (c + 1)
      rw [hrec] at this
      exact this

lemma customFieldsOfTemplates_proj (env : Env) (ts : List CustomFieldTemplate) :
    ∀ c, (customFieldsOfTemplates env ts c).1.map (fun cf => (cf.fieldName, cf.fieldValue))
      = ts.map (fun t => (t.label, if t.type == "number" then "0" else "")) := by
  induction ts with
  | nil => intro c; rfl
  | cons t ts ih =>
      intro c
      simp only [customFieldsOfTemplates, List.map_cons]
      rcases hrec : customFieldsOfTemplates env ts (c + 1) with ⟨cfs, c'⟩
      simp only [hrec, List.map_cons, List.cons.injEq]
      refine ⟨by trivial, ?_⟩
      have := ih (c + 1)
      rw [hrec] at this
      exact this

/-- C7: loading a package overwrites `customFields`, `resourceTrackers` and
`tables` only when they are currently empty (an existing tracker list is
left untouched; an empty one is populated from the package's tracker
templates), always sets `statsLabel` from the template (falling back to the
default label when the template's is falsy), and clearing with a null
package resets those fields to the application defaults and nulls the load
id. -/
theorem C7_setLoadedGameDataPackage (env : Env) (s : SessionState) (pkg : GameDataPackage)
    (lid : Option String) (c : Nat) :
    (s.resourceTrackers ≠ [] →
      (setLoadedGameDataPackage env (some pkg) lid s c).1.resourceTrackers
        = s.resourceTrackers) ∧
    (s.resourceTrackers = [] →
      (setLoadedGameDataPackage env (some pkg) lid s c).1.resourceTrackers.map
          (fun t => (t.name, t.value, t.history))
        = pkg.resourceTrackerTemplates.map
            (fun tm => (tm.name, tm.initialValue, ([] : List TrackerHistoryEntry)))) ∧
    (s.tables ≠ [] →
      (setLoadedGameDataPackage env (some pkg) lid s c).1.tables = s.tables) ∧
    (s.tables = [] →
      (setLoadedGameDataPackage env (some pkg) lid s c).1.tables
        = pkg.randomTables.map tableOfTemplate) ∧
    (s.characterSheet.customFields ≠ [] →
      (setLoadedGameDataPackage env (some pkg) lid s c).1.characterSheet.customFields
        = s.characterSheet.customFields) ∧
    (s.characterSheet.customFields = [] →
      (setLoadedGameDataPackage env (some pkg) lid s c).1.characterSheet.customFields.map
          (fun cf => (cf.fieldName, cf.fieldValue))
        = pkg.characterSheetTemplate.customFieldTemplates.map
            (fun t => (t.label, if t.type == "number" then "0" else ""))) ∧
    ((setLoadedGameDataPackage env (some pkg) lid s c).1.characterSheet.statsLabel
        = if pkg.characterSheetTemplate.statsLabel.truthy
          then pkg.characterSheetTemplate.statsLabel
          else initialCharacterSheetValues.statsLabel) ∧
    ((setLoadedGameDataPackage env none lid s c).1.loadedGameDataPackage = none ∧
     (setLoadedGameDataPackage env none lid s c).1.gameDataPackageLoadId = none ∧
     (setLoadedGameDataPackage env none lid s c).1.resourceTrackers = [] ∧
     (setLoadedGameDataPackage env none lid s c).1.tables = [] ∧
     (setLoadedGameDataPackage env none lid s c).1.characterSheet.customFields = [] ∧
     (setLoadedGameDataPackage env none lid s c).1.characterSheet.statsLabel
        = initialCharacterSheetValues.statsLabel) := by
  refine ⟨?_, ?_, ?_, ?_, ?_, ?_, ?_, ?_⟩
  · intro hne
    simp only [setLoadedGameDataPackage]
    repeat' split
    all_goals simp_all [List.length_eq_zero]
  · intro hemp
    simp only [setLoadedGameDataPackage]
    repeat' split
    all_goals simp_all [trackersOfTemplates_proj, List.length_eq_zero]
  · intro hne
    simp only [setLoadedGameDataPackage]
    repeat' split
    all_goals simp_all [List.length_eq_zero]
  · intro hemp
    simp only [setLoadedGameDataPackage]
    repeat' split
    all_goals simp_all [List.length_eq_zero]
  · intro hne
    simp only [setLoadedGameDataPackage]
    repeat' split
    all_goals simp_all [List.length_eq_zero]
  · intro hemp
    simp only [setLoadedGameDataPackage]
    repeat' split
    all_goals simp_all [customFieldsOfTemplates_proj, List.length_eq_zero]
  · simp only [setLoadedGameDataPackage]
  · simp [setLoadedGameDataPackage, initialCharacterSheetValues]

/-- A concrete well-formed game-data package with one tracker template. -/
def pkgSample : GameDataPackage :=
  { manifest :=
      { gameTitle := .str "Sample Game", author := .str "a", version := .str "1"
        description := .str "", srgdVersion := .str "1.0" }
    characterSheetTemplate :=
      { statsLabel := .str "Stats", baseStats := [], customFieldTemplates := [] }
    rulebookSections := []
    randomTables := []
    resourceTrackerTemplates := [{ id := .str "rt1", name := .str "MP", initialValue := 10 }] }

/-- Witness for C7: a session with one tracker keeps it; a session with no
trackers gets the template tracker. -/
theorem C7_setLoadedGameDataPackage_witness :
    (setLoadedGameDataPackage env0 (some pkgSample) none trackerState 0).1.resourceTrackers
      = trackerState.resourceTrackers ∧
    (setLoadedGameDataPackage env0 (some pkgSample) none (mkState "A") 0).1.resourceTrackers.map
        (fun t => (t.name, t.value, t.history))
      = pkgSample.resourceTrackerTemplates.map
          (fun tm => (tm.name, tm.initialValue, ([] : List TrackerHistoryEntry))) :=
  ⟨(C7_setLoadedGameDataPackage env0 trackerState pkgSample none 0).1 (by simp [trackerState]),
   (C7_setLoadedGameDataPackage env0 (mkState "A") pkgSample none 0).2.1 rfl⟩

/-! ## C6: adjustResourceTracker -/

lemma find?_map_of_pred_preserved {α : Type} (p : α → Bool) (f : α → α)
    (hp : ∀ x, p (f x) = p x) :
    ∀ (l : List α) (t : α), l.find? p = some t → (l.map f).find? p = some (f t) := by
  intro l
  induction l with
  | nil => intro t h; cases h
  | cons a l ih =>
      intro t h
      by_cases ha : p a = true
      · rw [List.find?_cons_of_pos _ ha] at h
        injection h with h
        subst h
        rw [List.map_cons, List.find?_cons_of_pos _ (by rw [hp]; exact ha)]
      · have ha' : ¬ p a := by simpa using ha
        rw [List.find?_cons_of_neg _ ha'] at h
        rw [List.map_cons, List.find?_cons_of_neg _ (by rw [hp]; exact ha')]
        exact ih t h

/-- C6: adjusting a tracker to its current value with an empty reason
changes nothing at all (no tracker-history record, no play-log entry, no
new undo step); adjusting it to a different value with an empty reason
commits exactly one new state carrying both the single new tracker-history
record {previousValue, newValue, change} and the single new play-log line
that references the tracker, through one `updateHistory` call. -/
theorem C6_adjust_tracker (env : Env) (h : HistoryState) (s : SessionState) (id : String)
    (t : ResourceTracker) (w : Int) (c : Nat)
    (hcur : h.current = some s)
    (hfind : s.resourceTrackers.find? (fun tr => tr.id == id) = some t)
    (hw : w ≠ t.value) :
    handleReflect env id t.value "" h c = (h, c) ∧
    (∃ s', handleReflect env id w "" h c = (updateHistory h s', c + 2) ∧
      s'.playLogEntries = s.playLogEntries ++
        [{ id := env.uuid (c + 1)
           content := "リソース「" ++
             (if t.name.truthy then jsDisplay t.name else "名称未設定トラッカー") ++
             "」変更: " ++ toString t.value ++ " → " ++ toString w ++ " (" ++
             (if w - t.value > 0 then "+" else "") ++ toString (w - t.value) ++ ")"
           type := "normal"
           colorKey := "default"
           timestamp := env.now }] ∧
      s'.resourceTrackers.find? (fun tr => tr.id == id) = some
        { t with value := w
                 history := { id := env.uuid c
                              timestamp := env.now
                              change := w - t.value
                              previousValue := t.value
                              newValue := w
                              reason := "" } :: t.history.take 49 } ∧
      s'.sessionId = s.sessionId) := by
  have htrim : jsTrim "" = "" := rfl
  constructor
  · simp only [handleReflect, HistoryState.current] at hcur ⊢
    simp only [hcur, hfind, htrim]
    simp
  · simp only [handleReflect, HistoryState.current] at hcur ⊢
    simp only [hcur, hfind, htrim]
    have hguard : (w != t.value || ("" != "")) = true := by
      simp [bne, hw]
    rw [if_pos hguard]
    simp only [handleReflectTrackerChange, hfind, htrim, addPlayLogEntry]
    rw [if_pos hguard]
    refine ⟨_, rfl, ?_, ?_, rfl⟩
    · simp [hw, bne]
    · have hpres : ∀ x : ResourceTracker,
          ((fun tr => tr.id == id)
            (if x.id == id then
              { x with value := w,
                       history := { id := env.uuid c, timestamp := env.now,
                                    change := w - t.value, previousValue := t.value,
                                    newValue := w, reason := "" } :: x.history.take 49 }
             else x)) = ((fun tr => tr.id == id) x) := by
        intro x
        by_cases hx : (x.id == id) = true
        · rw [if_pos hx]
        · rw [if_neg hx]
      have hmap := find?_map_of_pred_preserved (fun tr => tr.id == id)
        (fun x => if x.id == id then
          { x with value := w,
                   history := { id := env.uuid c, timestamp := env.now,
                                change := w - t.value, previousValue := t.value,
                                newValue := w, reason := "" } :: x.history.take 49 }
         else x) hpres s.resourceTrackers t hfind
      have hpt : (t.id == id) = true := by
        have := List.find?_some hfind
        simpa using this
      simp only [hpt, if_true] at hmap
      exact hmap

/-- Witness for C6 on the concrete tracker at value 5: the no-op call and
the 5 → 7 call. -/
theorem C6_adjust_tracker_witness :
    handleReflect env0 "T" trackerT.value "" ⟨[trackerState], 0⟩ 0 = (⟨[trackerState], 0⟩, 0) ∧
    (∃ s', handleReflect env0 "T" 7 "" ⟨[trackerState], 0⟩ 0
        = (updateHistory ⟨[trackerState], 0⟩ s', 0 + 2) ∧
      s'.playLogEntries = trackerState.playLogEntries ++
        [{ id := env0.uuid (0 + 1)
           content := "リソース「" ++
             (if trackerT.name.truthy then jsDisplay trackerT.name else "名称未設定トラッカー") ++
             "」変更: " ++ toString trackerT.value ++ " → " ++ toString (7 : Int) ++ " (" ++
             (if (7 : Int) - trackerT.value > 0 then "+" else "") ++
             toString ((7 : Int) - trackerT.value) ++ ")"
           type := "normal"
           colorKey := "default"
           timestamp := env0.now }] ∧
      s'.resourceTrackers.find? (fun tr => tr.id == "T") = some
        { trackerT with
            value := 7
            history := { id := env0.uuid 0
                         timestamp := env0.now
                         change := (7 : Int) - trackerT.value
                         previousValue := trackerT.value
                         newValue := 7
                         reason := "" } :: trackerT.history.take 49 } ∧
      s'.sessionId = trackerState.sessionId) :=
  C6_adjust_tracker env0 ⟨[trackerState], 0⟩ trackerState "T" trackerT 7 0 rfl rfl (by decide)

/-! ## Validator output shape lemmas (C1, C10) -/

lemma enumOrDefault_mem (v : Option Json) (allowed : List String) (dflt : String)
    (hd : allowed.contains dflt = true) :
    allowed.contains (enumOrDefault v allowed dflt) = true := by
  unfold enumOrDefault
  split
  · split
    · assumption
    · exact hd
  · exact hd

lemma arrOr_fst_all {β : Type} (v : Option Json) (f : List Json → List β × Nat) (c : Nat)
    (p : β → Bool) (hf : ∀ js, ((f js).1).all p = true) :
    ((arrOr v f ([], c)).1).all p = true := by
  unfold arrOr
  split
  · exact hf _
  · rfl

lemma validateLogEntries_enums (env : Env) (js : List Json) :
    ∀ c, ((validateLogEntries env js c).1).all
      (fun e => ["normal", "heading"].contains e.type &&
        PREDEFINED_COLORS_keys.contains e.colorKey) = true := by
  induction js with
  | nil => intro c; rfl
  | cons j js ih =>
      intro c
      simp only [validateLogEntries, validateLogEntry]
      by_cases hj : j.isObjLike = true
      · rw [if_pos hj]
        rcases hrec : validateLogEntries env js (strOrFresh env (j.getF "id") c).2
          with ⟨es, c''⟩
        simp only [hrec, List.all_cons, Bool.and_eq_true]
        refine ⟨⟨?_, ?_⟩, ?_⟩
        · exact enumOrDefault_mem _ _ _ (by decide)
        · exact enumOrDefault_mem _ _ _ (by decide)
        · have := ih (strOrFresh env (j.getF "id") c).2
          rw [hrec] at this
          simpa using this
      · rw [if_neg hj]
        exact ih c

lemma validateTableEntries_shaped (env : Env) (js : List Json) :
    ∀ c, ((validateTableEntries env js c).1).all TableEntry.validB = true := by
  induction js with
  | nil => intro c; rfl
  | cons j js ih =>
      intro c
      simp only [validateTableEntries, validateTableEntry]
      by_cases hj : j.isObjLike = true
      · rw [if_pos hj]
        rcases hrec : validateTableEntries env js (strOrFresh env (j.getF "id") c).2
          with ⟨es, c''⟩
        simp only [hrec, List.all_cons, Bool.and_eq_true]
        refine ⟨?_, ?_⟩
        · simp only [TableEntry.validB, Json.isStr, Bool.and_eq_true]
          refine ⟨by simp, ?_⟩
          rcases strOrNull (j.getF "rollValue") with _ | s <;> simp [Option.map]
        · have := ih (strOrFresh env (j.getF "id") c).2
          rw [hrec] at this
          simpa using this
      · rw [if_neg hj]
        exact ih c

lemma validateTables_shaped (env : Env) (js : List Json) :
    ∀ c, ((validateTables env js c).1).all RandomTable.validB = true := by
  induction js with
  | nil => intro c; rfl
  | cons j js ih =>
      intro c
      simp only [validateTables, validateTable]
      by_cases hj : j.isObjLike = true
      · rw [if_pos hj]
        rcases hrec : validateTables env js
          ((arrOr (j.getF "entries")
            (fun es => validateTableEntries env es (strOrFresh env (j.getF "id") c).2)
            ([], (strOrFresh env (j.getF "id") c).2)).2) with ⟨ts, c''⟩
        simp only [hrec, List.all_cons, Bool.and_eq_true]
        refine ⟨?_, ?_⟩
        · simp only [RandomTable.validB, Json.isStr, Bool.and_eq_true]
          refine ⟨by simp, ?_⟩
          exact arrOr_fst_all _ _ _ _
            (fun es => validateTableEntries_shaped env es ((strOrFresh env (j.getF "id") c).2))
        · have := ih ((arrOr (j.getF "entries")
            (fun es => validateTableEntries env es (strOrFresh env (j.getF "id") c).2)
            ([], (strOrFresh env (j.getF "id") c).2)).2)
          rw [hrec] at this
          simpa using this
      · rw [if_neg hj]
        exact ih c

lemma validateTrackers_names (env : Env) (js : List Json) :
    ∀ c, ((validateTrackers env js c).1).all (fun t => t.name.isStr) = true := by
  induction js with
  | nil => intro c; rfl
  | cons j js ih =>
      intro c
      simp only [validateTrackers, validateTracker]
      by_cases hj : j.isObjLike = true
      · rw [if_pos hj]
        rcases hrec : validateTrackers env js
          ((arrOr (j.getF "history")
            (fun hs => validateTrackerHistory env hs (strOrFresh env (j.getF "id") c).2)
            ([], (strOrFresh env (j.getF "id") c).2)).2) with ⟨ts, c''⟩
        simp only [hrec, List.all_cons, Bool.and_eq_true]
        refine ⟨rfl, ?_⟩
        have := ih ((arrOr (j.getF "history")
            (fun hs => validateTrackerHistory env hs (strOrFresh env (j.getF "id") c).2)
            ([], (strOrFresh env (j.getF "id") c).2)).2)
        rw [hrec] at this
        simpa using this
      · rw [if_neg hj]
        exact ih c

lemma validateCfts_types (env : Env) (xs : List Json) :
    ∀ c r, validateCfts env xs c = .ok r →
      (r.1).all (fun t => ["text", "textarea", "number"].contains t.type) = true := by
  induction xs with
  | nil =>
      intro c r h
      simp only [validateCfts, Except.ok.injEq] at h
      subst h
      rfl
  | cons x xs ih =>
      intro c r h
      simp only [validateCfts] at h
      rcases hx : validateCft env x c with e | r1
      · simp only [hx] at h
        cases h
      · simp only [hx] at h
        rcases hrec : validateCfts env xs r1.2 with e | rs
        · simp only [hrec] at h
          cases h
        · simp only [hrec, Except.ok.injEq] at h
          subst h
          simp only [List.all_cons, Bool.and_eq_true]
          refine ⟨?_, ih _ _ hrec⟩
          unfold validateCft at hx
          rcases x with _ | b | n | st | a | o
          · cases hx
          all_goals
            (simp only [Except.ok.injEq] at hx
             subst hx
             have hd : (["text", "textarea", "number"] : List String).contains "text" = true := by
               decide
             dsimp only
             exact enumOrDefault_mem _ _ _ hd)

lemma validatePackage_types (env : Env) (p : Json) (c : Nat) (r : GameDataPackage × Nat)
    (h : validatePackage env p c = .ok r) :
    (r.1.characterSheetTemplate.customFieldTemplates).all
      (fun t => ["text", "textarea", "number"].contains t.type) = true := by
  simp only [validatePackage] at h
  rcases h1 : arrOrE ((p.getF "characterSheetTemplate").bind
      (fun j => j.getF "customFieldTemplates")) (fun xs => validateCfts env xs c) c
    with e | cfts
  · simp only [h1] at h
    cases h
  · simp only [h1] at h
    rcases h2 : arrOrE (p.getF "rulebookSections")
        (fun xs => validateRulebookSections env xs cfts.2) cfts.2 with e | sections
    · simp only [h2] at h
      cases h
    · simp only [h2] at h
      rcases h3 : arrOrE (p.getF "randomTables")
          (fun xs => validateRandomTableTemplates env xs sections.2) sections.2 with e | rtbl
      · simp only [h3] at h
        cases h
      · simp only [h3] at h
        rcases h4 : arrOrE (p.getF "resourceTrackerTemplates")
            (fun xs => validateTrackerTemplates env xs rtbl.2) rtbl.2 with e | rtts
        · simp only [h4] at h
          cases h
        · simp only [h4, Except.ok.injEq] at h
          subst h
          unfold arrOrE at h1
          revert h1
          split
          · intro h1
            exact validateCfts_types env _ _ _ h1
          · intro h1
            simp only [Except.ok.injEq] at h1
            subst h1
            rfl

lemma getF_of_not_objLike (j : Json) (h : ¬ j.isObjLike = true) (k : String) :
    j.getF k = none := by
  cases j <;> simp_all [Json.isObjLike, Json.getF]

lemma forceLoadId_isSome (env : Env) (pkg : GameDataPackage) (raw : Option String) (c : Nat) :
    ((forceLoadId env (some pkg) raw c).1).isSome = true := by
  unfold forceLoadId
  rcases raw with _ | s
  · rfl
  · by_cases hs : s = "" <;> simp [hs]

lemma validatePackageField_types (env : Env) (v : Option Json) (c : Nat)
    (pr : Option GameDataPackage × Nat) (h : validatePackageField env v c = .ok pr) :
    ∀ pkg, pr.1 = some pkg →
      (pkg.characterSheetTemplate.customFieldTemplates).all
        (fun t => ["text", "textarea", "number"].contains t.type) = true := by
  intro pkg hpkg
  rcases v with _ | p
  · simp only [validatePackageField, Except.ok.injEq] at h
    rw [← h] at hpkg
    cases hpkg
  · simp only [validatePackageField] at h
    by_cases hob : (p.truthy && p.isObjLike) = true
    · rw [if_pos hob] at h
      rcases hvp : validatePackage env p c with e | r
      · simp only [hvp] at h
        cases h
      · simp only [hvp, Except.ok.injEq] at h
        rw [← h] at hpkg
        simp only [Option.some.injEq] at hpkg
        rw [← hpkg]
        exact validatePackage_types env p c r hvp
    · rw [if_neg hob] at h
      simp only [Except.ok.injEq] at h
      rw [← h] at hpkg
      cases hpkg

/-- Inversion on a successful validation: the output state carries the
structural shape the validator establishes, and its theme is exactly the
stored string (or the default for a non-string), with no membership check
against the theme enumeration. -/
lemma validate_ok_inv (env : Env) (j : Json) (c : Nat) (s : SessionState) (c' : Nat)
    (heq : validateAndMigrateData env j c = .ok (s, c')) :
    validatorShapedB s = true ∧
    s.theme = strOrDefault (j.getF "theme") (initialDefaultTheme env) := by
  by_cases hobj : j.isObjLike = true
  · simp only [validateAndMigrateData, hobj, not_true_eq_false, if_false] at heq
    split at heq
    · cases heq
    · rename_i pr hpf
      simp only [Except.ok.injEq, Prod.mk.injEq] at heq
      obtain ⟨hs, -⟩ := heq
      subst hs
      constructor
      · simp only [validatorShapedB, Bool.and_eq_true]
        refine ⟨⟨⟨⟨?_, rfl⟩, ?_⟩, ?_⟩, ?_⟩
        · exact arrOr_fst_all _ _ _ _ (fun js => validateLogEntries_enums env js _)
        · exact arrOr_fst_all _ _ _ _ (fun js => validateTables_shaped env js _)
        · exact arrOr_fst_all _ _ _ _ (fun js => validateTrackers_names env js _)
        · rcases hpkg : pr.1 with _ | pkg
          · simp [forceLoadId, hpkg]
          · have hsome := forceLoadId_isSome env pkg
              (strOrNull (j.getF "gameDataPackageLoadId")) pr.2
            rcases hl : (forceLoadId env (some pkg)
                (strOrNull (j.getF "gameDataPackageLoadId")) pr.2).1 with _ | l
            · rw [hl] at hsome
              cases hsome
            · exact validatePackageField_types env _ _ pr hpf pkg hpkg
      · rfl
  · have hinit : validateAndMigrateData env j c = .ok (getInitialSessionData env c) := by
      simp only [validateAndMigrateData]
      rw [if_pos (by simpa using hobj)]
    rw [hinit] at heq
    simp only [getInitialSessionData, Except.ok.injEq, Prod.mk.injEq] at heq
    obtain ⟨hs, -⟩ := heq
    subst hs
    constructor
    · rfl
    · rw [getF_of_not_objLike j hobj]
      rfl

lemma validateCft_total (env : Env) (x : Json) (hx : x.isNull = false) (c : Nat) :
    ∃ r, validateCft env x c = .ok r := by
  cases x
  case null => simp [Json.isNull] at hx
  all_goals exact ⟨_, rfl⟩

lemma validateRulebookSection_total (env : Env) (x : Json) (hx : x.isNull = false) (c : Nat) :
    ∃ r, validateRulebookSection env x c = .ok r := by
  cases x
  case null => simp [Json.isNull] at hx
  all_goals exact ⟨_, rfl⟩

lemma validateTableEntryTemplate_total (env : Env) (x : Json) (hx : x.isNull = false) (c : Nat) :
    ∃ r, validateTableEntryTemplate env x c = .ok r := by
  cases x
  case null => simp [Json.isNull] at hx
  all_goals exact ⟨_, rfl⟩

lemma validateTrackerTemplate_total (env : Env) (x : Json) (hx : x.isNull = false) (c : Nat) :
    ∃ r, validateTrackerTemplate env x c = .ok r := by
  cases x
  case null => simp [Json.isNull] at hx
  all_goals exact ⟨_, rfl⟩

lemma validateCfts_total (env : Env) (xs : List Json)
    (h : xs.all (fun x => !x.isNull) = true) :
    ∀ c, ∃ r, validateCfts env xs c = .ok r := by
  induction xs with
  | nil => intro c; exact ⟨_, rfl⟩
  | cons x xs ih =>
      intro c
      simp only [List.all_cons, Bool.and_eq_true] at h
      obtain ⟨r1, hr1⟩ := validateCft_total env x (by simpa using h.1) c
      obtain ⟨rs, hrs⟩ := ih h.2 r1.2
      refine ⟨(r1.1 :: rs.1, rs.2), ?_⟩
      simp only [validateCfts, hr1, hrs]

lemma validateRulebookSections_total (env : Env) (xs : List Json)
    (h : xs.all (fun x => !x.isNull) = true) :
    ∀ c, ∃ r, validateRulebookSections env xs c = .ok r := by
  induction xs with
  | nil => intro c; exact ⟨_, rfl⟩
  | cons x xs ih =>
      intro c
      simp only [List.all_cons, Bool.and_eq_true] at h
      obtain ⟨r1, hr1⟩ := validateRulebookSection_total env x (by simpa using h.1) c
      obtain ⟨rs, hrs⟩ := ih h.2 r1.2
      refine ⟨(r1.1 :: rs.1, rs.2), ?_⟩
      simp only [validateRulebookSections, hr1, hrs]

lemma validateTableEntryTemplates_total (env : Env) (xs : List Json)
    (h : xs.all (fun x => !x.isNull) = true) :
    ∀ c, ∃ r, validateTableEntryTemplates env xs c = .ok r := by
  induction xs with
  | nil => intro c; exact ⟨_, rfl⟩
  | cons x xs ih =>
      intro c
      simp only [List.all_cons, Bool.and_eq_true] at h
      obtain ⟨r1, hr1⟩ := validateTableEntryTemplate_total env x (by simpa using h.1) c
      obtain ⟨rs, hrs⟩ := ih h.2 r1.2
      refine ⟨(r1.1 :: rs.1, rs.2), ?_⟩
      simp only [validateTableEntryTemplates, hr1, hrs]

lemma validateTrackerTemplates_total (env : Env) (xs : List Json)
    (h : xs.all (fun x => !x.isNull) = true) :
    ∀ c, ∃ r, validateTrackerTemplates env xs c = .ok r := by
  induction xs with
  | nil => intro c; exact ⟨_, rfl⟩
  | cons x xs ih =>
      intro c
      simp only [List.all_cons, Bool.and_eq_true] at h
      obtain ⟨r1, hr1⟩ := validateTrackerTemplate_total env x (by simpa using h.1) c
      obtain ⟨rs, hrs⟩ := ih h.2 r1.2
      refine ⟨(r1.1 :: rs.1, rs.2), ?_⟩
      simp only [validateTrackerTemplates, hr1, hrs]

lemma validateRandomTableTemplate_total (env : Env) (x : Json)
    (hx : (!x.isNull &&
      (match x.getF "entries" with
       | some (.arr es) => es.all (fun e => !e.isNull)
       | _ => true)) = true) (c : Nat) :
    ∃ r, validateRandomTableTemplate env x c = .ok r := by
  rw [Bool.and_eq_true] at hx
  obtain ⟨hnull, hent⟩ := hx
  have hent' : ∃ er, arrOrE (x.getF "entries")
      (fun es => validateTableEntryTemplates env es (jsOrFresh env (x.getF "id") c).2)
      ((jsOrFresh env (x.getF "id") c).2) = .ok er := by
    unfold arrOrE
    split
    · rename_i es hes
      rw [hes] at hent
      exact validateTableEntryTemplates_total env es hent _
    · exact ⟨_, rfl⟩
  obtain ⟨er, her⟩ := hent'
  cases x
  case null => simp [Json.isNull] at hnull
  all_goals
    (simp only [validateRandomTableTemplate, her]
     exact ⟨_, rfl⟩)

lemma validateRandomTableTemplates_total (env : Env) (xs : List Json)
    (h : xs.all (fun x => !x.isNull &&
      (match x.getF "entries" with
       | some (.arr es) => es.all (fun e => !e.isNull)
       | _ => true)) = true) :
    ∀ c, ∃ r, validateRandomTableTemplates env xs c = .ok r := by
  induction xs with
  | nil => intro c; exact ⟨_, rfl⟩
  | cons x xs ih =>
      intro c
      simp only [List.all_cons, Bool.and_eq_true] at h
      obtain ⟨r1, hr1⟩ := validateRandomTableTemplate_total env x
        (by rw [Bool.and_eq_true]; exact h.1) c
      obtain ⟨rs, hrs⟩ := ih h.2 r1.2
      refine ⟨(r1.1 :: rs.1, rs.2), ?_⟩
      simp only [validateRandomTableTemplates, hr1, hrs]

lemma validatePackage_total (env : Env) (p : Json)
    (hp : packageElemsNonNull p = true) (c : Nat) :
    ∃ r, validatePackage env p c = .ok r := by
  simp only [packageElemsNonNull, Bool.and_eq_true] at hp
  obtain ⟨⟨⟨hcft, hsec⟩, hrt⟩, hrtt⟩ := hp
  have h1 : ∃ r1, arrOrE ((p.getF "characterSheetTemplate").bind
      (fun j => j.getF "customFieldTemplates")) (fun xs => validateCfts env xs c) c
      = .ok r1 := by
    unfold arrOrE
    split
    · rename_i xs hxs
      rw [hxs] at hcft
      exact validateCfts_total env xs hcft _
    · exact ⟨_, rfl⟩
  obtain ⟨r1, hr1⟩ := h1
  have h2 : ∃ r2, arrOrE (p.getF "rulebookSections")
      (fun xs => validateRulebookSections env xs r1.2) r1.2 = .ok r2 := by
    unfold arrOrE
    split
    · rename_i xs hxs
      rw [hxs] at hsec
      exact validateRulebookSections_total env xs hsec _
    · exact ⟨_, rfl⟩
  obtain ⟨r2, hr2⟩ := h2
  have h3 : ∃ r3, arrOrE (p.getF "randomTables")
      (fun xs => validateRandomTableTemplates env xs r2.2) r2.2 = .ok r3 := by
    unfold arrOrE
    split
    · rename_i xs hxs
      rw [hxs] at hrt
      exact validateRandomTableTemplates_total env xs hrt _
    · exact ⟨_, rfl⟩
  obtain ⟨r3, hr3⟩ := h3
  have h4 : ∃ r4, arrOrE (p.getF "resourceTrackerTemplates")
      (fun xs => validateTrackerTemplates env xs r3.2) r3.2 = .ok r4 := by
    unfold arrOrE
    split
    · rename_i xs hxs
      rw [hxs] at hrtt
      exact validateTrackerTemplates_total env xs hrtt _
    · exact ⟨_, rfl⟩
  obtain ⟨r4, hr4⟩ := h4
  refine ⟨({ manifest := mergeManifest (p.getF "manifest")
             characterSheetTemplate :=
               { statsLabel := ((objOrEmpty (p.getF "characterSheetTemplate")).getF
                   "statsLabel").getD (Json.str "能力値・詳細")
                 baseStats := arrOr ((p.getF "characterSheetTemplate").bind
                   (fun j => j.getF "baseStats")) (fun xs => xs) []
                 customFieldTemplates := r1.1 }
             rulebookSections := r2.1
             randomTables := r3.1
             resourceTrackerTemplates := r4.1 }, r4.2), ?_⟩
  simp only [validatePackage, hr1, hr2, hr3, hr4]

lemma validatePackageField_total (env : Env) (v : Option Json) (c : Nat)
    (hv : (match v with
           | some p => !(p.truthy && p.isObjLike) || packageElemsNonNull p
           | none => true) = true) :
    ∃ pr, validatePackageField env v c = .ok pr := by
  rcases v with _ | p
  · exact ⟨_, rfl⟩
  · simp only [validatePackageField]
    by_cases hob : (p.truthy && p.isObjLike) = true
    · rw [if_pos hob]
      have hp : packageElemsNonNull p = true := by
        simp only [hob, Bool.not_true, Bool.false_or] at hv
        exact hv
      obtain ⟨r, hr⟩ := validatePackage_total env p hp c
      refine ⟨(some r.1, r.2), ?_⟩
      simp only [hr]
    · rw [if_neg hob]
      exact ⟨_, rfl⟩

lemma validate_total (env : Env) (j : Json) (c : Nat) (hsafe : validateInputSafe j = true) :
    ∃ s c', validateAndMigrateData env j c = .ok (s, c') := by
  by_cases hobj : j.isObjLike = true
  · unfold validateInputSafe at hsafe
    rcases hres : validateAndMigrateData env j c with e | r
    · exfalso
      simp only [validateAndMigrateData, hobj, not_true_eq_false, if_false] at hres
      split at hres
      · rename_i e' hpf
        obtain ⟨pr, hpr⟩ := validatePackageField_total env
          (j.getF "loadedGameDataPackage") _ hsafe
        rw [hpr] at hpf
        cases hpf
      · cases hres
    · rcases r with ⟨s, c'⟩
      exact ⟨s, c', rfl⟩
  · refine ⟨(getInitialSessionData env c).1, (getInitialSessionData env c).2, ?_⟩
    simp only [validateAndMigrateData]
    rw [if_pos (by simpa using hobj)]

/-- C1 (amended): `validateAndMigrateData` is total and returns a
structurally valid SessionState for every JSON-shaped input whose
`loadedGameDataPackage` nested arrays contain no `null` element; on `null`
and every other non-object input it returns the full default SessionState
with a fresh session id.  (On excluded inputs it throws — see the
counterexample.) -/
theorem C1_validator_total (env : Env) (j : Json) (c : Nat)
    (hsafe : validateInputSafe j = true) :
    (∃ s c', validateAndMigrateData env j c = .ok (s, c') ∧ validatorShapedB s = true) ∧
    (¬ j.isObjLike = true →
      validateAndMigrateData env j c = .ok (getInitialSessionData env c) ∧
      (getInitialSessionData env c).1.sessionId = env.uuid c) := by
  constructor
  · obtain ⟨s, c', hok⟩ := validate_total env j c hsafe
    exact ⟨s, c', hok, (validate_ok_inv env j c s c' hok).1⟩
  · intro hobj
    refine ⟨?_, rfl⟩
    simp only [validateAndMigrateData]
    rw [if_pos (by simpa using hobj)]

/-- Witness for C1 on the `null` input. -/
theorem C1_validator_total_witness :
    validateInputSafe Json.null = true ∧
    ((∃ s c', validateAndMigrateData env0 Json.null 0 = .ok (s, c') ∧
        validatorShapedB s = true) ∧
     (¬ Json.null.isObjLike = true →
       validateAndMigrateData env0 Json.null 0 = .ok (getInitialSessionData env0 0) ∧
       (getInitialSessionData env0 0).1.sessionId = env0.uuid 0)) :=
  ⟨rfl, C1_validator_total env0 Json.null 0 rfl⟩

/-- A deeply-malformed stored session: its game-data package holds a `null`
rulebook section. -/
def throwingInput : Json :=
  .obj [("loadedGameDataPackage", .obj [("rulebookSections", .arr [Json.null])])]

/-- C1 (counterexample): on this input the validator throws a `TypeError`
(reading `section.id` of `null`) instead of returning a SessionState. -/
theorem C1_counterexample :
    validateAndMigrateData env0 throwingInput 0 = .error () ∧
    validateInputSafe throwingInput = false :=
  ⟨rfl, rfl⟩

/-- C10 (amended): on every successful validation, log-entry `type` and
`colorKey` and custom-field-template `type` are forced into their fixed
enumerations (defaults otherwise), but `theme` undergoes no membership
check: any stored string is kept verbatim, and only a non-string input
falls back to the default theme. -/
theorem C10_enum_validation (env : Env) (j : Json) (c : Nat) (s : SessionState) (c' : Nat)
    (heq : validateAndMigrateData env j c = .ok (s, c')) :
    (s.playLogEntries.all (fun e => ["normal", "heading"].contains e.type &&
      PREDEFINED_COLORS_keys.contains e.colorKey)) = true ∧
    (∀ pkg, s.loadedGameDataPackage = some pkg →
      (pkg.characterSheetTemplate.customFieldTemplates.all
        (fun t => ["text", "textarea", "number"].contains t.type)) = true) ∧
    s.theme = strOrDefault (j.getF "theme") (initialDefaultTheme env) := by
  obtain ⟨hshaped, htheme⟩ := validate_ok_inv env j c s c' heq
  simp only [validatorShapedB, Bool.and_eq_true] at hshaped
  obtain ⟨⟨⟨⟨h1, h2⟩, h3⟩, h4⟩, h5⟩ := hshaped
  refine ⟨h1, ?_, htheme⟩
  intro pkg hpkg
  rw [hpkg] at h5
  rcases hl : s.gameDataPackageLoadId with _ | l
  · rw [hl] at h5
    simp at h5
  · rw [hl] at h5
    exact h5

/-- Witness for C10 on the `null` input. -/
theorem C10_enum_validation_witness :
    ((getInitialSessionData env0 0).1.playLogEntries.all
      (fun e => ["normal", "heading"].contains e.type &&
        PREDEFINED_COLORS_keys.contains e.colorKey)) = true ∧
    (∀ pkg, (getInitialSessionData env0 0).1.loadedGameDataPackage = some pkg →
      (pkg.characterSheetTemplate.customFieldTemplates.all
        (fun t => ["text", "textarea", "number"].contains t.type)) = true) ∧
    (getInitialSessionData env0 0).1.theme
      = strOrDefault (Json.null.getF "theme") (initialDefaultTheme env0) :=
  C10_enum_validation env0 Json.null 0 (getInitialSessionData env0 0).1
    (getInitialSessionData env0 0).2 rfl

/-- C10 (counterexample): the stored theme "neon" is outside the theme
enumeration yet survives validation verbatim. -/
theorem C10_counterexample :
    (match validateAndMigrateData env0 (Json.obj [("theme", Json.str "neon")]) 0 with
     | .ok (s, _) => s.theme
     | .error _ => "") = "neon" ∧
    themeOptionValues.contains "neon" = false :=
  ⟨rfl, by decide⟩

/-! ## C5: rejected package load -/

/-- After a successful commit the current snapshot is the committed one. -/
lemma updateHistory_current (h : HistoryState) (d : SessionState) (hd : d.sessionId ≠ "") :
    (updateHistory h d).current = some d := by
  simp only [updateHistory, if_neg hd, HistoryState.current, MAX_HISTORY_SIZE]
  split
  · rename_i hgt
    rw [← List.getLast?_eq_get?]
    have hle : (h.history.take (h.cursor + 1) ++ [d]).length - 10
        ≤ (h.history.take (h.cursor + 1)).length := by
      simp only [List.length_append, List.length_singleton]
      omega
    rw [List.drop_append_of_le_length hle, List.getLast?_concat]
  · rw [← List.getLast?_eq_get?, List.getLast?_concat]

/-- C5 (amended): a package file whose validated manifest has a falsy
`gameTitle` is rejected (a user-facing alert is raised in the catch block),
and the rejection path commits a *new* state through
`setLoadedGameDataPackage(null, null)`: the package pointer and load id end
up null and the template-derived collections reset — they do not keep their
pre-call values. -/
theorem C5_empty_gameTitle_rejected (env : Env) (h : HistoryState) (s : SessionState)
    (fileJson : Json) (c : Nat) (v : SessionState) (c1 : Nat) (pkg : GameDataPackage)
    (hcur : h.current = some s) (hsid : s.sessionId ≠ "")
    (hval : validateAndMigrateData env (Json.obj [("loadedGameDataPackage", fileJson)]) c
      = .ok (v, c1))
    (hpkg : v.loadedGameDataPackage = some pkg)
    (htitle : pkg.manifest.gameTitle.truthy = false) :
    ∃ s', (handleLoadGameDataPackageFile env fileJson h c).1.current = some s' ∧
      s'.loadedGameDataPackage = none ∧ s'.gameDataPackageLoadId = none ∧
      s'.resourceTrackers = [] ∧ s'.tables = [] ∧
      s'.characterSheet.customFields = [] ∧ s'.sessionId = s.sessionId ∧
      s'.playLogEntries = s.playLogEntries := by
  simp only [handleLoadGameDataPackageFile, hval, hpkg, htitle, Bool.false_eq_true,
    if_false, commitMutator, setLoadedGameDataPackage]
  simp only [HistoryState.current] at hcur
  rw [hcur]
  exact ⟨_, updateHistory_current h _ hsid, rfl, rfl, rfl, rfl, rfl, rfl, rfl⟩

/-- A session that currently has a loaded package, a load id, and one
tracker. -/
def pkgLoadedState : SessionState :=
  { mkState "P" with
      loadedGameDataPackage := some pkgSample
      gameDataPackageLoadId := some "load-1"
      resourceTrackers := [trackerT] }

/-- A package file whose manifest carries an explicitly empty gameTitle. -/
def emptyTitleFile : Json :=
  .obj [("manifest", .obj [("gameTitle", .str "")])]

/-- C5 (counterexample): loading the empty-gameTitle file over a session
that had a loaded package does not leave `loadedGameDataPackage` /
`gameDataPackageLoadId` at their pre-call values — it clears them. -/
theorem C5_counterexample :
    ((handleLoadGameDataPackageFile env0 emptyTitleFile ⟨[pkgLoadedState], 0⟩ 0).1.current).map
        (fun s => (s.loadedGameDataPackage.isSome, s.gameDataPackageLoadId,
          s.resourceTrackers.length))
      = some (false, none, 0) ∧
    (pkgLoadedState.loadedGameDataPackage.isSome, pkgLoadedState.gameDataPackageLoadId,
      pkgLoadedState.resourceTrackers.length) = (true, some "load-1", 1) :=
  ⟨rfl, rfl⟩

/-- The state, counter and package produced by validating the wrapped
empty-gameTitle file under `env0`. -/
def c5v : SessionState :=
  ((validateAndMigrateData env0
      (Json.obj [("loadedGameDataPackage", emptyTitleFile)]) 0).toOption.map
    Prod.fst).getD (mkState "x")

def c5c : Nat :=
  ((validateAndMigrateData env0
      (Json.obj [("loadedGameDataPackage", emptyTitleFile)]) 0).toOption.map
    Prod.snd).getD 0

def c5pkg : GameDataPackage := c5v.loadedGameDataPackage.getD pkgSample

/-- Witness for C5: the same concrete rejected load, reached through the
general theorem. -/
theorem C5_empty_gameTitle_rejected_witness :
    ∃ s', (handleLoadGameDataPackageFile env0 emptyTitleFile ⟨[pkgLoadedState], 0⟩ 0).1.current
        = some s' ∧
      s'.loadedGameDataPackage = none ∧ s'.gameDataPackageLoadId = none ∧
      s'.resourceTrackers = [] ∧ s'.tables = [] ∧
      s'.characterSheet.customFields = [] ∧ s'.sessionId = pkgLoadedState.sessionId ∧
      s'.playLogEntries = pkgLoadedState.playLogEntries :=
  C5_empty_gameTitle_rejected env0 ⟨[pkgLoadedState], 0⟩ pkgLoadedState emptyTitleFile 0
    c5v c5c c5pkg rfl (by decide) (by rfl) (by rfl) (by rfl)

/-! ## C3: round trip of a valid SessionState through save and load -/

lemma validateLogEntry_roundTrip (env : Env) (e : LogEntry) (he : e.validB env = true)
    (c : Nat) : validateLogEntry env e.toJson c = (some e, c) := by
  simp only [LogEntry.validB, Bool.and_eq_true] at he
  obtain ⟨⟨h1, h2⟩, h3⟩ := he
  have h1' : e.type = "normal" ∨ e.type = "heading" := by simpa using h1
  have h2' : e.colorKey ∈ PREDEFINED_COLORS_keys := by simpa using h2
  simp [validateLogEntry, LogEntry.toJson, Json.getF, lookupField, Json.isObjLike,
    strOrFresh, strOrDefault, enumOrDefault, tsOrNow, h1', h2', h3]

lemma validateLogEntries_roundTrip (env : Env) (es : List LogEntry)
    (he : es.all (LogEntry.validB env) = true) (c : Nat) :
    validateLogEntries env (es.map LogEntry.toJson) c = (es, c) := by
  induction es generalizing c with
  | nil => rfl
  | cons e es ih =>
      simp only [List.all_cons, Bool.and_eq_true] at he
      simp only [List.map_cons, validateLogEntries,
        validateLogEntry_roundTrip env e he.1 c, ih he.2 c]

lemma validateCustomField_roundTrip (env : Env) (cf : CustomField)
    (hcf : cf.validB = true) (c : Nat) :
    validateCustomField env cf.toJson c = (cf, c) := by
  simp only [CustomField.validB] at hcf
  rcases cf with ⟨id, nm, v⟩
  rcases nm with _ | _ | _ | nms | _ | _ <;> simp_all [Json.isStr]
  simp [validateCustomField, CustomField.toJson, Json.getF, lookupField,
    strOrFresh, strOrDefault]

lemma validateCustomFields_roundTrip (env : Env) (cfs : List CustomField)
    (h : cfs.all CustomField.validB = true) (c : Nat) :
    validateCustomFields env (cfs.map CustomField.toJson) c = (cfs, c) := by
  induction cfs generalizing c with
  | nil => rfl
  | cons cf cfs ih =>
      simp only [List.all_cons, Bool.and_eq_true] at h
      simp only [List.map_cons, validateCustomFields,
        validateCustomField_roundTrip env cf h.1 c, ih h.2 c]

lemma validateTableEntry_roundTrip (env : Env) (e : TableEntry)
    (he : e.validB = true) (c : Nat) :
    validateTableEntry env e.toJson c = (some e, c) := by
  simp only [TableEntry.validB, Bool.and_eq_true] at he
  obtain ⟨⟨h1, h2⟩, h3⟩ := he
  rcases e with ⟨id, v, rv⟩
  rcases id with _ | _ | _ | ids | _ | _ <;> simp_all [Json.isStr]
  rcases v with _ | _ | _ | vs | _ | _ <;> simp_all [Json.isStr]
  rcases rv with _ | rvj
  · simp [validateTableEntry, TableEntry.toJson, Json.getF, lookupField,
      Json.isObjLike, strOrFresh, strOrDefault, strOrNull]
  · rcases rvj with _ | _ | _ | rvs | _ | _ <;> simp_all [Json.isStr]
    simp [validateTableEntry, TableEntry.toJson, Json.getF, lookupField,
      Json.isObjLike, strOrFresh, strOrDefault, strOrNull]

lemma validateTableEntries_roundTrip (env : Env) (es : List TableEntry)
    (h : es.all TableEntry.validB = true) (c : Nat) :
    validateTableEntries env (es.map TableEntry.toJson) c = (es, c) := by
  induction es generalizing c with
  | nil => rfl
  | cons e es ih =>
      simp only [List.all_cons, Bool.and_eq_true] at h
      simp only [List.map_cons, validateTableEntries,
        validateTableEntry_roundTrip env e h.1 c, ih h.2 c]

lemma validateTable_roundTrip (env : Env) (t : RandomTable)
    (ht : t.validB = true) (c : Nat) :
    validateTable env t.toJson c = (some t, c) := by
  simp only [RandomTable.validB, Bool.and_eq_true] at ht
  obtain ⟨⟨⟨h1, h2⟩, h3⟩, h4⟩ := ht
  rcases t with ⟨id, nm, dc, entries⟩
  rcases id with _ | _ | _ | ids | _ | _ <;> simp_all [Json.isStr]
  rcases nm with _ | _ | _ | nms | _ | _ <;> simp_all [Json.isStr]
  rcases dc with _ | _ | _ | dcs | _ | _ <;> simp_all [Json.isStr]
  simp [validateTable, RandomTable.toJson, Json.getF, lookupField, Json.isObjLike,
    strOrFresh, strOrDefault, arrOr,
    validateTableEntries_roundTrip env entries (List.all_eq_true.mpr h4) c]

lemma validateTables_roundTrip (env : Env) (ts : List RandomTable)
    (h : ts.all RandomTable.validB = true) (c : Nat) :
    validateTables env (ts.map RandomTable.toJson) c = (ts, c) := by
  induction ts generalizing c with
  | nil => rfl
  | cons t ts ih =>
      simp only [List.all_cons, Bool.and_eq_true] at h
      simp only [List.map_cons, validateTables,
        validateTable_roundTrip env t h.1 c, ih h.2 c]

lemma validateTrackerHistoryEntry_roundTrip (env : Env) (e : TrackerHistoryEntry)
    (he : e.validB env = true) (c : Nat) :
    validateTrackerHistoryEntry env e.toJson c = (some e, c) := by
  simp only [TrackerHistoryEntry.validB] at he
  simp [validateTrackerHistoryEntry, TrackerHistoryEntry.toJson, Json.getF, lookupField,
    Json.isObjLike, strOrFresh, strOrDefault, numOrDefault, tsOrNow, he]

lemma validateTrackerHistory_roundTrip (env : Env) (es : List TrackerHistoryEntry)
    (h : es.all (TrackerHistoryEntry.validB env) = true) (c : Nat) :
    validateTrackerHistory env (es.map TrackerHistoryEntry.toJson) c = (es, c) := by
  induction es generalizing c with
  | nil => rfl
  | cons e es ih =>
      simp only [List.all_cons, Bool.and_eq_true] at h
      simp only [List.map_cons, validateTrackerHistory,
        validateTrackerHistoryEntry_roundTrip env e h.1 c, ih h.2 c]

lemma validateTracker_roundTrip (env : Env) (t : ResourceTracker)
    (ht : t.validB env = true) (c : Nat) :
    validateTracker env t.toJson c = (some t, c) := by
  simp only [ResourceTracker.validB, Bool.and_eq_true] at ht
  obtain ⟨h1, h2⟩ := ht
  rcases t with ⟨id, nm, v, hist⟩
  rcases nm with _ | _ | _ | nms | _ | _ <;> simp_all [Json.isStr]
  simp [validateTracker, ResourceTracker.toJson, Json.getF, lookupField, Json.isObjLike,
    strOrFresh, strOrDefault, numOrDefault, arrOr,
    validateTrackerHistory_roundTrip env hist (List.all_eq_true.mpr h2) c]

lemma validateTrackers_roundTrip (env : Env) (ts : List ResourceTracker)
    (h : ts.all (ResourceTracker.validB env) = true) (c : Nat) :
    validateTrackers env (ts.map ResourceTracker.toJson) c = (ts, c) := by
  induction ts generalizing c with
  | nil => rfl
  | cons t ts ih =>
      simp only [List.all_cons, Bool.and_eq_true] at h
      simp only [List.map_cons, validateTrackers,
        validateTracker_roundTrip env t h.1 c, ih h.2 c]

lemma filterMap_num_map (ns : List Int) :
    (ns.map Json.num).filterMap
      (fun n => match n with | .num m => some m | _ => none) = ns := by
  induction ns with
  | nil => rfl
  | cons n ns ih => simp [List.filterMap_cons, ih]

lemma filterMap_num_comp (ns : List Int) :
    ns.filterMap ((fun n => match n with | Json.num m => some m | _ => none) ∘ Json.num)
      = ns := by
  induction ns with
  | nil => rfl
  | cons n ns ih => simp [List.filterMap_cons, ih, Function.comp]

lemma validateDiceRoll_roundTrip (env : Env) (r : DiceRoll)
    (hr : r.validB env = true) (c : Nat) :
    validateDiceRoll env r.toJson c = (some r, c) := by
  simp only [DiceRoll.validB] at hr
  simp [validateDiceRoll, DiceRoll.toJson, Json.getF, lookupField, Json.isObjLike,
    strOrFresh, strOrDefault, numOrDefault, tsOrNow, arrOr, hr, filterMap_num_map,
    filterMap_num_comp]

lemma validateDiceRolls_roundTrip (env : Env) (rs : List DiceRoll)
    (h : rs.all (DiceRoll.validB env) = true) (c : Nat) :
    validateDiceRolls env (rs.map DiceRoll.toJson) c = (rs, c) := by
  induction rs generalizing c with
  | nil => rfl
  | cons r rs ih =>
      simp only [List.all_cons, Bool.and_eq_true] at h
      simp only [List.map_cons, validateDiceRolls,
        validateDiceRoll_roundTrip env r h.1 c, ih h.2 c]

lemma jsOrDefault_of_truthy (j : Json) (d : String) (h : j.truthy = true) :
    jsOrDefault (some j) d = j := by
  simp [jsOrDefault, h]

lemma jsOrFresh_of_truthy (env : Env) (j : Json) (c : Nat) (h : j.truthy = true) :
    jsOrFresh env (some j) c = (j, c) := by
  simp [jsOrFresh, h]

lemma jsOrDefault_of_orEmptyStable (j : Json) (h : orEmptyStable j = true) :
    jsOrDefault (some j) "" = j := by
  simp only [orEmptyStable, Bool.or_eq_true] at h
  rcases h with h | h
  · simp [jsOrDefault, h]
  · rcases j with _ | _ | _ | s | _ | _ <;> simp_all [jsOrDefault, Json.truthy]

lemma validateCft_roundTrip (env : Env) (t : CustomFieldTemplate)
    (ht : t.validB = true) (c : Nat) :
    validateCft env t.toJson c = .ok (t, c) := by
  simp only [CustomFieldTemplate.validB, Bool.and_eq_true] at ht
  obtain ⟨⟨h1, h2⟩, h3⟩ := ht
  have h3' : t.type = "text" ∨ t.type = "textarea" ∨ t.type = "number" := by simpa using h3
  simp [validateCft, CustomFieldTemplate.toJson, Json.getF, lookupField,
    jsOrFresh_of_truthy env _ _ h1, jsOrDefault_of_truthy _ _ h2, enumOrDefault, h3']

lemma validateCfts_roundTrip (env : Env) (ts : List CustomFieldTemplate)
    (h : ts.all CustomFieldTemplate.validB = true) (c : Nat) :
    validateCfts env (ts.map CustomFieldTemplate.toJson) c = .ok (ts, c) := by
  induction ts generalizing c with
  | nil => rfl
  | cons t ts ih =>
      simp only [List.all_cons, Bool.and_eq_true] at h
      simp only [List.map_cons, validateCfts, validateCft_roundTrip env t h.1 c, ih h.2 c]

lemma validateRulebookSection_roundTrip (env : Env) (s : RulebookSection) (c : Nat) :
    validateRulebookSection env s.toJson c = .ok (s, c) := by
  simp [validateRulebookSection, RulebookSection.toJson, Json.getF, lookupField,
    strOrFresh, strOrDefault]

lemma validateRulebookSections_roundTrip (env : Env) (ss : List RulebookSection) (c : Nat) :
    validateRulebookSections env (ss.map RulebookSection.toJson) c = .ok (ss, c) := by
  induction ss generalizing c with
  | nil => rfl
  | cons s ss ih =>
      simp only [List.map_cons, validateRulebookSections,
        validateRulebookSection_roundTrip env s c, ih c]

lemma validateTableEntryTemplate_roundTrip (env : Env) (e : TableEntryTemplate)
    (he : e.validB = true) (c : Nat) :
    validateTableEntryTemplate env e.toJson c = .ok (e, c) := by
  simp only [TableEntryTemplate.validB, Bool.and_eq_true] at he
  obtain ⟨⟨h1, h2⟩, h3⟩ := he
  simp [validateTableEntryTemplate, TableEntryTemplate.toJson, Json.getF, lookupField,
    jsOrFresh_of_truthy env _ _ h1, jsOrDefault_of_orEmptyStable _ h2,
    jsOrDefault_of_orEmptyStable _ h3]

lemma validateTableEntryTemplates_roundTrip (env : Env) (es : List TableEntryTemplate)
    (h : es.all TableEntryTemplate.validB = true) (c : Nat) :
    validateTableEntryTemplates env (es.map TableEntryTemplate.toJson) c = .ok (es, c) := by
  induction es generalizing c with
  | nil => rfl
  | cons e es ih =>
      simp only [List.all_cons, Bool.and_eq_true] at h
      simp only [List.map_cons, validateTableEntryTemplates,
        validateTableEntryTemplate_roundTrip env e h.1 c, ih h.2 c]

lemma validateRandomTableTemplate_roundTrip (env : Env) (t : RandomTableTemplate)
    (ht : t.validB = true) (c : Nat) :
    validateRandomTableTemplate env t.toJson c = .ok (t, c) := by
  simp only [RandomTableTemplate.validB, Bool.and_eq_true] at ht
  obtain ⟨⟨⟨h1, h2⟩, h3⟩, h4⟩ := ht
  simp [validateRandomTableTemplate, RandomTableTemplate.toJson, Json.getF, lookupField,
    jsOrFresh_of_truthy env _ _ h1, jsOrDefault_of_truthy _ _ h2, arrOrE,
    jsOrDefault_of_orEmptyStable _ h3, validateTableEntryTemplates_roundTrip env _ h4]

lemma validateRandomTableTemplates_roundTrip (env : Env) (ts : List RandomTableTemplate)
    (h : ts.all RandomTableTemplate.validB = true) (c : Nat) :
    validateRandomTableTemplates env (ts.map RandomTableTemplate.toJson) c = .ok (ts, c) := by
  induction ts generalizing c with
  | nil => rfl
  | cons t ts ih =>
      simp only [List.all_cons, Bool.and_eq_true] at h
      simp only [List.map_cons, validateRandomTableTemplates,
        validateRandomTableTemplate_roundTrip env t h.1 c, ih h.2 c]

lemma validateTrackerTemplate_roundTrip (env : Env) (t : ResourceTrackerTemplate)
    (ht : t.validB = true) (c : Nat) :
    validateTrackerTemplate env t.toJson c = .ok (t, c) := by
  simp only [ResourceTrackerTemplate.validB, Bool.and_eq_true] at ht
  obtain ⟨h1, h2⟩ := ht
  simp [validateTrackerTemplate, ResourceTrackerTemplate.toJson, Json.getF, lookupField,
    jsOrFresh_of_truthy env _ _ h1, jsOrDefault_of_truthy _ _ h2, numOrDefault]

lemma validateTrackerTemplates_roundTrip (env : Env) (ts : List ResourceTrackerTemplate)
    (h : ts.all ResourceTrackerTemplate.validB = true) (c : Nat) :
    validateTrackerTemplates env (ts.map ResourceTrackerTemplate.toJson) c = .ok (ts, c) := by
  induction ts generalizing c with
  | nil => rfl
  | cons t ts ih =>
      simp only [List.all_cons, Bool.and_eq_true] at h
      simp only [List.map_cons, validateTrackerTemplates,
        validateTrackerTemplate_roundTrip env t h.1 c, ih h.2 c]

lemma mergeManifest_roundTrip (m : Manifest) :
    mergeManifest (some m.toJson) = m := by
  simp [mergeManifest, Manifest.toJson, objOrEmpty, Json.getF, lookupField, Json.truthy]

lemma validatePackage_roundTrip (env : Env) (p : GameDataPackage)
    (hp : p.validB = true) (c : Nat) :
    validatePackage env p.toJson c = .ok (p, c) := by
  simp only [GameDataPackage.validB, Bool.and_eq_true] at hp
  obtain ⟨⟨hc, hr⟩, ht⟩ := hp
  simp [validatePackage, GameDataPackage.toJson, CharacterSheetTemplate.toJson,
    Json.getF, lookupField, objOrEmpty, arrOr, arrOrE, Json.truthy,
    mergeManifest_roundTrip, validateCfts_roundTrip env _ hc,
    validateRulebookSections_roundTrip env _,
    validateRandomTableTemplates_roundTrip env _ hr,
    validateTrackerTemplates_roundTrip env _ ht]

lemma pkg_toJson_truthy (p : GameDataPackage) : p.toJson.truthy = true := rfl

lemma pkg_toJson_objLike (p : GameDataPackage) : p.toJson.isObjLike = true := rfl

lemma truthy_obj (fs : List (String × Json)) : (Json.obj fs).truthy = true := rfl

lemma truthy_null : Json.null.truthy = false := rfl

lemma isObjLike_obj (fs : List (String × Json)) : (Json.obj fs).isObjLike = true := rfl

/-- C3 (amended): serializing a structurally valid SessionState and feeding
it back through `validateAndMigrateData` reproduces the state exactly —
including `sessionId`, which is preserved (line 2229 keeps any stored
string id), not regenerated.  Exactly two uuids are consumed (the discarded
default template and the provisional id of line 2091), neither of which
reaches the output. -/
theorem C3_roundTrip (env : Env) (s : SessionState) (c : Nat)
    (hv : s.validB env = true) :
    validateAndMigrateData env s.toJson c = .ok (s, c + 2) := by
  simp only [SessionState.validB, Bool.and_eq_true] at hv
  obtain ⟨⟨⟨⟨⟨h1, h2⟩, h3⟩, h4⟩, h5⟩, h6⟩ := hv
  simp only [CharacterSheet.validB, Bool.and_eq_true] at h2
  obtain ⟨h2a, h2b⟩ := h2
  obtain ⟨sid, pls, plt, cs, tbs, rts, drs, thm, opkg, olid⟩ := s
  obtain ⟨nm, img, sts, stl, cfs⟩ := cs
  simp only at h1 h2a h2b h3 h4 h5 h6
  rcases stl with _ | b | n | stls | a | o <;> simp [Json.isStr] at h2a
  rcases opkg with _ | p
  · rcases olid with _ | l
    · rcases img with _ | imgs <;>
        simp [validateAndMigrateData, SessionState.toJson, CharacterSheet.toJson,
          getInitialSessionData, Json.getF, lookupField, Json.isObjLike, arrOr,
          objOrEmpty, Json.truthy, strOrDefault, strOrNull, strOrFresh,
          validatePackageField, forceLoadId,
          validateLogEntries_roundTrip env pls h1,
          validateCustomFields_roundTrip env cfs h2b,
          validateTables_roundTrip env tbs h3,
          validateTrackers_roundTrip env rts h4,
          validateDiceRolls_roundTrip env drs h5,
          Nat.add_assoc]
    · exact absurd h6 (by simp)
  · rcases olid with _ | l
    · exact absurd h6 (by simp)
    · simp only [Bool.and_eq_true] at h6
      obtain ⟨hp, hl⟩ := h6
      have hlne : ¬ l = "" := by simpa using hl
      rcases img with _ | imgs <;>
        simp [validateAndMigrateData, SessionState.toJson, CharacterSheet.toJson,
          getInitialSessionData, Json.getF, lookupField, isObjLike_obj, arrOr,
          objOrEmpty, truthy_obj, truthy_null, strOrDefault, strOrNull, strOrFresh,
          validatePackageField, forceLoadId, pkg_toJson_truthy, pkg_toJson_objLike, hlne,
          validateLogEntries_roundTrip env pls h1,
          validateCustomFields_roundTrip env cfs h2b,
          validateTables_roundTrip env tbs h3,
          validateTrackers_roundTrip env rts h4,
          validateDiceRolls_roundTrip env drs h5,
          validatePackage_roundTrip env p hp,
          Nat.add_assoc]

/-- A concrete structurally valid session with entries in every
collection and the stored session id "my-session-id". -/
def rtState : SessionState :=
  { sessionId := "my-session-id"
    playLogEntries := [{ id := "e1", content := "hello", type := "normal",
                         colorKey := "blue", timestamp := "2024-06-01T10:00:00.000Z" }]
    playLogTitle := "プレイログ"
    characterSheet :=
      { name := "Hero", image := none, stats := "STR 3"
        statsLabel := Json.str "能力値・詳細"
        customFields := [{ id := "cf1", fieldName := Json.str "Age", fieldValue := "30" }] }
    tables := [{ id := Json.str "t1", name := Json.str "Events"
                 diceCommand := Json.str "1d6"
                 entries := [{ id := Json.str "te1", value := Json.str "Rain"
                               rollValue := some (Json.str "1-3") }] }]
    resourceTrackers := [{ id := "T", name := Json.str "HP", value := 5
                           history := [{ id := "h1"
                                         timestamp := "2024-06-01T10:00:00.000Z"
                                         change := 0, previousValue := 5, newValue := 5
                                         reason := "init" }] }]
    diceRollHistory := [{ id := "d1", command := "2d6", individualRolls := [3, 4]
                          total := 7, timestamp := "2024-06-01T10:00:00.000Z" }]
    theme := "dark"
    loadedGameDataPackage := none
    gameDataPackageLoadId := none }

/-- C3 (counterexample): the round trip reproduces `rtState` exactly — its
`sessionId` "my-session-id" is preserved verbatim and is not one of the
freshly generated ids the run consumed, so the sessionId is not
"freshly-generated" on file load. -/
theorem C3_counterexample :
    validateAndMigrateData env0 rtState.toJson 0 = .ok (rtState, 2) ∧
    (match validateAndMigrateData env0 rtState.toJson 0 with
     | .ok (s, _) => s.sessionId
     | .error _ => "") = "my-session-id" ∧
    env0.uuid 0 ≠ "my-session-id" ∧ env0.uuid 1 ≠ "my-session-id" := by
  refine ⟨rfl, rfl, ?_, ?_⟩ <;> decide

/-- Witness for C3 at the concrete valid state and a non-zero counter. -/
theorem C3_roundTrip_witness :
    validateAndMigrateData env0 rtState.toJson 5 = .ok (rtState, 5 + 2) :=
  C3_roundTrip env0 rtState 5 (by rfl)
